import Mathlib

/-!
Verification of the AllenDataHub order-fulfillment backend.

This file shallowly embeds the parts of the TypeScript source that the
checked claims are about:

* `src/server/services/portal02Service.ts` — the vendor gateway client
  (phone normalization, volume extraction and whitelists, purchase,
  bounded retry, webhook-payload parsing);
* `src/server/storage.ts` — `createCompletedOrder` and
  `deductAgentBalance`;
* the route file (`src/unnamed/part_000`) — the `POST /api/cart/checkout`
  handler (wallet branch and Paystack branch), the `POST /api/orders/pay`
  handler, the Paystack webhook order fan-out, and the Portal-02 vendor
  webhook handler.

Monetary amounts are decimal GHS values and are modelled as `Rat`.
JavaScript `undefined` is modelled as `Option.none`; JS truthiness on
strings (where `""` is falsy) and the `||` operator are modelled
explicitly.  External I/O (the vendor HTTP call, the awaited result of a
dispatch inside a handler) is passed in as an explicit oracle argument.
Thrown JS exceptions are modelled with `Except String`.
-/

/-- JS truthiness of an optional string: `undefined` and `""` are falsy. -/
def jsFalsy : Option String → Bool
  | none => true
  | some s => s = ""

/-- JS `a || b` on optional strings (`""` and `undefined` are falsy). -/
def jsOr (a b : Option String) : Option String :=
  if jsFalsy a then b else a

/-- JS `a || d` where `d` is a plain string. -/
def jsStrOr (a : Option String) (d : String) : String :=
  match a with
  | none => d
  | some s => if s = "" then d else s

/-- Mirrors JS `String.prototype.includes` on char lists: does `l` start with `pat`? -/
def listStartsWith : List Char → List Char → Bool
  | _, [] => true
  | [], _ :: _ => false
  | a :: as, b :: bs => a == b && listStartsWith as bs

/-- Does `pat` occur as a contiguous sublist of `l`? -/
def listContainsSub : List Char → List Char → Bool
  | [], pat => pat.isEmpty
  | a :: as, pat => listStartsWith (a :: as) pat || listContainsSub as pat

/-- Mirrors JS `s.includes(pat)`. -/
def strContainsSub (s pat : String) : Bool :=
  listContainsSub s.toList pat.toList

/-! ## Vendor gateway client (`src/server/services/portal02Service.ts`) -/

/-- Per-network offer slugs (`offerSlugs`, portal02Service.ts:5). -/
def offerSlugs (network : String) : Option String :=
  if network = "MTN" then some "master_beneficiary_data_bundle"
  else if network = "Telecel" then some "telecel_expiry_bundle"
  else if network = "AirtelTigo" then some "ishare_data_bundle"
  else none

/-- Per-network whitelists of integer GB sizes (`availableVolumes`, portal02Service.ts:11). -/
def availableVolumes (network : String) : Option (List Int) :=
  if network = "MTN" then some [1, 2, 3, 4, 5, 6, 7, 8, 10, 15, 20, 25, 30, 40, 50, 100]
  else if network = "Telecel" then some [5, 10, 15, 20, 25, 30, 40, 50, 100]
  else if network = "AirtelTigo" then some [1, 2, 3, 4, 5, 6, 7, 8, 9, 10, 11, 12, 13, 14, 15, 20]
  else none

/-- Per-network endpoint path segments (`networkToEndpoint`, portal02Service.ts:17). -/
def networkToEndpoint (network : String) : Option String :=
  if network = "MTN" then some "mtn"
  else if network = "Telecel" then some "telecel"
  else if network = "AirtelTigo" then some "at"
  else none

/-- `mapNetworkToEndpoint` (portal02Service.ts:49): table lookup with lowercase fallback. -/
def mapNetworkToEndpoint (network : String) : String :=
  (networkToEndpoint network).getD network.toLower

/-- `formatPhoneNumber` (portal02Service.ts:23): strip non-digits, then
canonicalize.  The `+233` branch of the source is kept even though it is
unreachable after `replace(/\D/g, "")` has removed the plus sign. -/
def formatPhoneNumber (phone : String) : String :=
  if phone = "" then ""
  else
    let cleaned : String := ⟨phone.toList.filter Char.isDigit⟩
    if cleaned.startsWith "0" && cleaned.length = 10 then
      "233" ++ ⟨cleaned.toList.drop 1⟩
    else if cleaned.startsWith "+233" then
      ⟨cleaned.toList.drop 1⟩
    else if cleaned.length = 9 then
      "233" ++ cleaned
    else cleaned

/-- The `string | number` bundle-size argument of `purchaseDataBundle`. -/
inductive BundleSize
  | num (n : Int)
  | str (s : String)
deriving DecidableEq, Repr

/-- Value of a digit run, most significant first. -/
def digitsVal (ds : List Char) : Nat :=
  ds.foldl (fun acc c => acc * 10 + (c.toNat - 48)) 0

/-- The first maximal run of digit characters in a character list, if any. -/
def firstDigitRun : List Char → Option (List Char)
  | [] => none
  | c :: rest =>
      if c.isDigit then some ((c :: rest).takeWhile Char.isDigit)
      else firstDigitRun rest

/-- `extractVolumeNumber` (portal02Service.ts:32).  For a string the source
matches the regex `(\d+(\.\d+)?)` and applies `parseInt(-, 10)`, which reads
exactly the leading digit run of the match and truncates at a decimal point;
no match yields 0.  A numeric argument is returned unchanged. -/
def extractVolumeNumber : BundleSize → Int
  | .num n => n
  | .str s =>
      match firstDigitRun s.toList with
      | some ds => Int.ofNat (digitsVal ds)
      | none => 0

/-- `isVolumeAvailable` (portal02Service.ts:38): `volumes ? volumes.includes(volume) : false`. -/
def isVolumeAvailable (network : String) (volume : Int) : Bool :=
  match availableVolumes network with
  | some volumes => volumes.contains volume
  | none => false

/-- Error message of the unsupported-volume early return
(portal02Service.ts:68, template string interpolating volume and network). -/
def unsupportedVolumeMsg (volume : Int) (network : String) : String :=
  toString volume ++ "GB not available for " ++ network

/-- Normalized result of a purchase attempt (the ad-hoc result objects built
in `purchaseDataBundle`).  Fields absent from a given branch stay `none`.
The `amount`, `currency`, `raw` and `details` passthrough fields are not
used by any caller in the repository and are omitted. -/
structure PurchaseResult where
  success : Bool
  error : Option String := none
  transactionId : Option String := none
  reference : Option String := none
  status : Option String := none
  message : Option String := none
  platform : Option String := none
  code : Option Nat := none
deriving DecidableEq, Repr

/-- Shape of the parsed JSON body of the vendor's HTTP response, together
with the transport-level outcome.  `statusCode` is `response.status`;
`statusField` is the body's `data.status`. -/
structure VendorResponse where
  ok : Bool
  statusCode : Nat
  message : Option String := none
  error : Option String := none
  orderId : Option String := none
  id : Option String := none
  reference : Option String := none
  statusField : Option String := none
deriving DecidableEq, Repr

/-- Outcome of one `fetch` to the vendor: a resolved response, or a thrown
network error (the `catch` branch, with `error?.message || "Network error"`
already applied to give the final message). -/
inductive VendorOutcome
  | response (r : VendorResponse)
  | netError (msg : String)
deriving DecidableEq, Repr

/-- `purchaseDataBundle` (portal02Service.ts:58).  Returns the purchase
result together with a flag recording whether the outbound vendor call was
made.  The `Except` layer models the uncaught `throw` of `getOfferSlug`
(portal02Service.ts:45); it is proved unreachable below. -/
def purchaseDataBundle (phone : String) (bundleSize : BundleSize)
    (network : String) (orderReference : Option String)
    (outcome : VendorOutcome) : Except String (PurchaseResult × Bool) :=
  let _formattedPhone := formatPhoneNumber phone
  let _ref := orderReference
  let volume := extractVolumeNumber bundleSize
  if volume ≤ 0 then
    .ok ({ success := false, error := some "Invalid bundle size" }, false)
  else if ¬ isVolumeAvailable network volume then
    .ok ({ success := false, error := some (unsupportedVolumeMsg volume network) }, false)
  else
    match offerSlugs network with
    | none => .error ("No offer slug found for network: " ++ network)
    | some _offerSlug =>
      match outcome with
      | .netError msg =>
          .ok ({ success := false, platform := some "Portal-02.com",
                 error := some msg, code := some 500 }, true)
      | .response r =>
          if ¬ r.ok then
            .ok ({ success := false, platform := some "Portal-02.com",
                   error := jsOr r.message (jsOr r.error (some ("HTTP " ++ toString r.statusCode))),
                   code := some r.statusCode }, true)
          else
            .ok ({ success := true,
                   transactionId := jsOr r.orderId r.id,
                   reference := jsOr r.reference r.orderId,
                   status := some (jsStrOr r.statusField "pending"),
                   message := some "Order submitted to Portal-02" }, true)

/-- The retry loop's classification of non-retryable validation errors
(portal02Service.ts:133-138): `error?.includes?.(...)` over the three
markers; an absent error message matches none of them. -/
def isValidationErrorMsg : Option String → Bool
  | none => false
  | some s =>
      strContainsSub s "not available" || strContainsSub s "Invalid" ||
        strContainsSub s "must be"

/-- Aggregate outcome of `purchaseDataBundleWithRetry`: the returned result,
the number of attempts made, the backoff waits (ms) actually slept, and the
number of outbound vendor calls made. -/
structure RetryOutcome where
  result : PurchaseResult
  attempts : Nat
  waits : List Nat
  calls : Nat
deriving DecidableEq, Repr

/-- Backoff before the attempt after 1-based attempt number `attempt`
(portal02Service.ts:140): `Math.min(1000 * Math.pow(2, attempt - 1), 5000)`.
Here `idx` is the 0-based index, so `idx = attempt - 1`. -/
def backoffWait (idx : Nat) : Nat :=
  min (1000 * 2 ^ idx) 5000

/-- Loop body of `purchaseDataBundleWithRetry` (portal02Service.ts:129-143).
`idx` is the 0-based index of the attempt about to be made; `remaining` is
the number of loop iterations still allowed.  The oracle gives the vendor
outcome for each attempt index. -/
def retryLoop (phone : String) (bundleSize : BundleSize) (network : String)
    (orderReference : Option String) (oracle : Nat → VendorOutcome) :
    (remaining idx : Nat) → (waits : List Nat) → (calls : Nat) →
    Except String (Option RetryOutcome)
  | 0, _, _, _ => .ok none
  | remaining + 1, idx, waits, calls =>
      match purchaseDataBundle phone bundleSize network orderReference (oracle idx) with
      | .error e => .error e
      | .ok (r, called) =>
          let calls' := calls + (if called then 1 else 0)
          if r.success then
            .ok (some { result := r, attempts := idx + 1, waits := waits, calls := calls' })
          else if isValidationErrorMsg r.error then
            .ok (some { result := r, attempts := idx + 1, waits := waits, calls := calls' })
          else if remaining = 0 then
            .ok (some { result := r, attempts := idx + 1, waits := waits, calls := calls' })
          else
            retryLoop phone bundleSize network orderReference oracle
              remaining (idx + 1) (waits ++ [backoffWait idx]) calls'

/-- `purchaseDataBundleWithRetry` (portal02Service.ts:121), `maxRetries`
defaulting to 2 at every call site in the repository.  When the loop makes
no attempt at all (`maxRetries = 0`) the source returns the fallback
`{ success: false, error: "All purchase attempts failed" }`. -/
def purchaseDataBundleWithRetry (phone : String) (bundleSize : BundleSize)
    (network : String) (orderReference : Option String)
    (oracle : Nat → VendorOutcome) (maxRetries : Nat) :
    Except String RetryOutcome :=
  match retryLoop phone bundleSize network orderReference oracle maxRetries 0 [] 0 with
  | .error e => .error e
  | .ok (some out) => .ok out
  | .ok none =>
      .ok { result := { success := false, error := some "All purchase attempts failed" },
            attempts := 0, waits := [], calls := 0 }

/-! ## Data model (`src/unnamed/part_001` ProductSchema, `src/server/models/order.ts`) -/

/-- Product document.  `price` is the legacy single price; `userPrice` and
`agentPrice` are the role-specific prices.  All three are optional in the
schema. -/
structure Product where
  id : String
  name : String
  network : String
  dataAmount : String
  price : Option Rat := none
  userPrice : Option Rat := none
  agentPrice : Option Rat := none
deriving DecidableEq, Repr

/-- A cart entry as returned by `storage.getCart` (storage.ts:88), which
already maps `c.quantity || 1`. -/
structure CartItem where
  productId : String
  quantity : Nat := 1
  phoneNumber : Option String := none
deriving DecidableEq, Repr

/-- The product collection, keyed by id (`Product.findById`). -/
def Catalog : Type := String → Option Product

/-- One entry of an order's `processingResults` array (order.ts:14). -/
structure ProcR where
  itemIndex : Nat
  success : Bool
  transactionId : Option String := none
  reference : Option String := none
  message : Option String := none
  error : Option String := none
  status : String
deriving DecidableEq, Repr

/-- One entry of an order's `webhookHistory` array (order.ts:15). -/
structure WebhookEntry where
  event : Option String := none
  orderId : Option String := none
  reference : Option String := none
  status : Option String := none
  recipient : Option String := none
  volume : Option Int := none
  timestamp : Nat := 0
deriving DecidableEq, Repr

/-- An Order document (order.ts).  Ids are modelled as a running counter.
`price` and `dataAmount` are `required` in the schema, so a persisted order
always carries them. -/
structure OrderRec where
  id : Nat
  userId : String
  productId : String
  price : Rat
  dataAmount : String
  status : String
  paymentStatus : String
  phoneNumber : Option String := none
  productName : Option String := none
  vendorOrderId : Option String := none
  processingResults : List ProcR := []
  webhookHistory : List WebhookEntry := []
deriving DecidableEq, Repr

/-- The decoded access-token payload attached by `verifyJWT` (jwt.ts:348).
`generateAccessToken` (jwt.ts:310) signs exactly `{id, username, role,
email}`, and the login/register handlers (auth.ts:253, auth.ts:302) build
the payload from `{id, username, role}` only. -/
structure JwtUser where
  id : String
  username : String
  role : String
  email : Option String := none
deriving DecidableEq, Repr

/-- Reading `user.balance` on the JWT payload: the field is not part of the
signed payload, so it is always `undefined`. -/
def JwtUser.balanceField (_ : JwtUser) : Option Rat := none

/-- Reading `user.isVerified` on the JWT payload: always `undefined`. -/
def JwtUser.isVerifiedField (_ : JwtUser) : Option Bool := none

/-- Reading `user._id` on the JWT payload (the Mongo document field): the
payload carries `id`, not `_id`, so this is always `undefined`. -/
def JwtUser.mongoId (_ : JwtUser) : Option String := none

/-- `item.quantity || 1` (part_000:412, part_000:166). -/
def qtyOrOne (n : Nat) : Nat := if n = 0 then 1 else n

/-- Role-specific unit price: `role === 'agent' ? p.agentPrice : p.userPrice`. -/
def rolePrice (role : String) (p : Product) : Option Rat :=
  if role = "agent" then p.agentPrice else p.userPrice

/-- Checkout total (part_000:373-382): lines whose product is missing from
the catalog are skipped (`if (!p) continue`); each present line adds
`(perItemPrice || 0) * (item.quantity || 1)`. -/
def computeTotal (catalog : Catalog) (role : String) (cart : List CartItem) : Rat :=
  cart.foldl
    (fun total item =>
      match catalog item.productId with
      | none => total
      | some p => total + (rolePrice role p).getD 0 * (qtyOrOne item.quantity : Rat))
    0

/-! ## Storage layer (`src/server/storage.ts`) -/

/-- `DatabaseStorage.deductAgentBalance` (storage.ts:249): a single atomic
`$inc` of `-Math.abs(amount)` with no balance check of its own. -/
def deductAgentBalance (balance amount : Rat) : Rat :=
  balance - |amount|

/-- Named arguments of `DatabaseStorage.createCompletedOrder` (storage.ts:201). -/
structure CreateOrderArgs where
  productId : String
  userId : String
  priceOverride : Option Rat := none
  phoneNumber : Option String := none
  productName : Option String := none
  paymentStatus : Option String := none
  statusOverride : Option String := none

/-- The Order document built and saved by
`DatabaseStorage.createCompletedOrder` (storage.ts:206-215).  The user daily
counters and `totalGBPurchased` increments (storage.ts:221-236) are not
modelled; no claim refers to them. -/
def mkCompletedOrder (p : Product) (args : CreateOrderArgs) (price : Rat) (oid : Nat) :
    OrderRec :=
  { id := oid,
    userId := args.userId,
    productId := args.productId,
    price := price,
    dataAmount := p.dataAmount,
    status := jsStrOr args.statusOverride "completed",
    paymentStatus := jsStrOr args.paymentStatus "success",
    phoneNumber := if jsFalsy args.phoneNumber then none else args.phoneNumber,
    productName := jsOr args.productName (some p.name) }

/-- `DatabaseStorage.createCompletedOrder` (storage.ts:201-247).  Throws
(`Except.error`) when the product is missing, or when both `priceOverride`
and `p.price` are absent so that the schema-required `price` path fails on
save. -/
def createCompletedOrder (catalog : Catalog) (args : CreateOrderArgs) (oid : Nat) :
    Except String OrderRec :=
  match catalog args.productId with
  | none => .error "Product not found"
  | some p =>
      match (match args.priceOverride with | some x => some x | none => p.price) with
      | none => .error "Order validation failed: price is required"
      | some price => .ok (mkCompletedOrder p args price oid)

/-- `Order.findByIdAndUpdate` with a `$set`, modelled as an in-place map. -/
def updateOrderById (orders : List OrderRec) (oid : Nat) (f : OrderRec → OrderRec) :
    List OrderRec :=
  orders.map fun o => if o.id = oid then f o else o

/-- `$set` of `processingResults.0`: replaces index 0, creating the array
if it was empty. -/
def setProcR0 (l : List ProcR) (r : ProcR) : List ProcR :=
  match l with
  | [] => [r]
  | _ :: rest => r :: rest

/-- The `$set` applied to an order after an awaited dispatch result
(part_000:433-447 and part_000:189-203, identical in both handlers). -/
def applyDispatchResult (o : OrderRec) (r : PurchaseResult) : OrderRec :=
  { o with
    vendorOrderId := jsOr r.transactionId r.reference,
    processingResults := setProcR0 o.processingResults
      { itemIndex := 0, success := r.success, transactionId := r.transactionId,
        reference := r.reference, message := r.message, error := r.error,
        status := jsStrOr r.status (if r.success then "processing" else "failed") },
    status := if r.success then "processing" else "failed" }

/-- The `$set` applied in the checkout handler's dispatch `catch` branch
(part_000:450-452). -/
def applyDispatchCatch (o : OrderRec) (msg : String) : OrderRec :=
  { o with
    status := "failed",
    processingResults := setProcR0 o.processingResults
      { itemIndex := 0, success := false, error := some msg, status := "failed" } }

/-- The `$set` applied in the Paystack-webhook handler's dispatch `catch`
branch (part_000:206-212); unlike the checkout one it also re-asserts
`paymentStatus: "success"`. -/
def applyDispatchCatchWebhook (o : OrderRec) (msg : String) : OrderRec :=
  { o with
    status := "failed",
    paymentStatus := "success",
    processingResults := setProcR0 o.processingResults
      { itemIndex := 0, success := false, error := some msg, status := "failed" } }

/-! ## Checkout orchestrator (`POST /api/cart/checkout`, part_000:360-491) -/

/-- Persistent-store state relevant to one user's checkout: the agent's
wallet balance, the order collection, the user's cart, and a fresh-id
counter for new orders. -/
structure CheckoutState where
  balance : Rat
  orders : List OrderRec
  cart : List CartItem
  nextOrderId : Nat
deriving DecidableEq, Repr

/-- Observable side effects of the checkout handler, in execution order. -/
inductive Ev
  | debit (amount : Rat)
  | orderCreated (oid : Nat)
  | vendorDispatch (oid : Nat)
  | cartCleared
deriving DecidableEq, Repr

/-- Body of the outbound Paystack `transaction/initialize` POST.  An
`undefined` amount is dropped by `JSON.stringify`, hence `Option`. -/
structure PaystackInitBody where
  amount : Option Rat
  email : String
  currency : String
  metadataType : String
  metadataUserId : Option String := none
  metadataCart : List CartItem := []
  metadataProductId : Option String := none
deriving DecidableEq, Repr

/-- Response of the checkout handler. -/
inductive CheckoutResult
  | emptyCart
  | walletForbidden
  | insufficient (required have_ : Rat)
  | ok (createdIds : List Nat)
  | paystackInit (body : PaystackInitBody)
  | thrown (msg : String)
deriving DecidableEq, Repr

/-- The TypeError raised at part_000:409 when `productsMap[item.productId]`
is `undefined` and the handler reads the role price field off it (outside
every `try`). -/
def missingProductTypeError (role : String) : String :=
  "TypeError: cannot read " ++ (if role = "agent" then "agentPrice" else "userPrice")
    ++ " of undefined"

/-- One unit of one cart line in the wallet branch (part_000:412-458):
create the order (`try`/`catch`: a creation failure is logged and skipped),
then, when a phone number is present, dispatch to the vendor and fold the
awaited result — or the thrown error — into the order.  `vr` is the awaited
result of `purchaseDataBundleWithRetry` (`Except.error` models a throw).
Returns the new state, the emitted events, the id pushed onto `created`
(empty on creation failure), and whether the vendor was invoked. -/
def processUnit (catalog : Catalog) (userId productId : String)
    (perItemPrice : Option Rat) (phone : String) (p : Product)
    (vr : Except String PurchaseResult) (st : CheckoutState) :
    CheckoutState × List Ev × List Nat × Bool :=
  match createCompletedOrder catalog
    { productId := productId, userId := userId,
      priceOverride := perItemPrice,
      phoneNumber := some phone,
      productName := some p.name,
      statusOverride := if phone ≠ "" then some "processing" else none }
    st.nextOrderId with
  | .error _ => (st, [], [], false)
  | .ok order =>
      let st1 := { st with orders := st.orders ++ [order], nextOrderId := st.nextOrderId + 1 }
      if phone = "" then
        (st1, [.orderCreated order.id], [order.id], false)
      else
        match vr with
        | .ok r =>
            ({ st1 with orders := updateOrderById st1.orders order.id (applyDispatchResult · r) },
             [.orderCreated order.id, .vendorDispatch order.id], [order.id], true)
        | .error msg =>
            ({ st1 with orders := updateOrderById st1.orders order.id (applyDispatchCatch · msg) },
             [.orderCreated order.id, .vendorDispatch order.id], [order.id], true)

/-- The `for (let i = 0; i < (item.quantity || 1); i++)` fan-out for one
cart line.  `vendor` maps the index of each vendor invocation in this
checkout to its awaited outcome; `k` is the next such index. -/
def processUnits (catalog : Catalog) (userId productId : String)
    (perItemPrice : Option Rat) (phone : String) (p : Product)
    (vendor : Nat → Except String PurchaseResult) :
    (n k : Nat) → CheckoutState → CheckoutState × List Ev × List Nat × Nat
  | 0, k, st => (st, [], [], k)
  | n + 1, k, st =>
      let step := processUnit catalog userId productId perItemPrice phone p (vendor k) st
      let k1 := if step.2.2.2 then k + 1 else k
      let rest := processUnits catalog userId productId perItemPrice phone p vendor n k1 step.1
      (rest.1, step.2.1 ++ rest.2.1, step.2.2.1 ++ rest.2.2.1, rest.2.2.2)

/-- One cart line of the wallet branch (part_000:406-411): read the product
from `productsMap` — built from the same catalog during the total
computation, hence equal to a fresh lookup — and crash with a TypeError if
it is absent, since the role-price read happens outside every `try`. -/
def processItem (catalog : Catalog) (role userId : String)
    (vendor : Nat → Except String PurchaseResult) (item : CartItem)
    (k : Nat) (st : CheckoutState) :
    Option String × CheckoutState × List Ev × List Nat × Nat :=
  match catalog item.productId with
  | none => (some (missingProductTypeError role), st, [], [], k)
  | some p =>
      let perItemPrice := rolePrice role p
      let phone := jsStrOr item.phoneNumber ""
      let r := processUnits catalog userId item.productId perItemPrice phone p vendor
        (qtyOrOne item.quantity) k st
      (none, r.1, r.2.1, r.2.2.1, r.2.2.2)

/-- The wallet branch's loop over cart lines.  A thrown TypeError stops the
loop; writes made before it remain persisted. -/
def walletLoop (catalog : Catalog) (role userId : String)
    (vendor : Nat → Except String PurchaseResult) :
    List CartItem → Nat → CheckoutState →
    Option String × CheckoutState × List Ev × List Nat × Nat
  | [], k, st => (none, st, [], [], k)
  | item :: rest, k, st =>
      match processItem catalog role userId vendor item k st with
      | (some e, st1, evs, ids, k1) => (some e, st1, evs, ids, k1)
      | (none, st1, evs, ids, k1) =>
          let r := walletLoop catalog role userId vendor rest k1 st1
          (r.1, r.2.1, evs ++ r.2.2.1, ids ++ r.2.2.2.1, r.2.2.2.2)

/-- The `POST /api/cart/checkout` handler (part_000:360-491).  The Paystack
secret is assumed configured (the unconfigured 500 path carries no claim).
In the wallet branch the balance check reads the fresh stored balance
(`storage.getUser`, part_000:392); the Paystack branch builds the
`transaction/initialize` body with `amount: total * 100` and the full cart
snapshot in the metadata, and clears nothing. -/
def cartCheckout (catalog : Catalog) (user : JwtUser) (paymentMethod : String)
    (vendor : Nat → Except String PurchaseResult) (st : CheckoutState) :
    CheckoutResult × CheckoutState × List Ev :=
  let cart := st.cart
  if cart.isEmpty then (.emptyCart, st, [])
  else
    let role := user.role
    let total := computeTotal catalog role cart
    if paymentMethod = "wallet" then
      if role ≠ "agent" then (.walletForbidden, st, [])
      else if st.balance < total then (.insufficient total st.balance, st, [])
      else
        let st1 := { st with balance := deductAgentBalance st.balance total }
        match walletLoop catalog role user.id vendor cart 0 st1 with
        | (some e, st2, evs, _, _) => (.thrown e, st2, .debit total :: evs)
        | (none, st2, evs, ids, _) =>
            (.ok ids, { st2 with cart := [] }, .debit total :: evs ++ [.cartCleared])
    else
      (.paystackInit
        { amount := some (total * 100),
          email := jsStrOr user.email (jsStrOr (some user.username) ""),
          currency := "GHS",
          metadataType := "order",
          metadataUserId := some user.id,
          metadataCart := cart },
       st, [])

/-! ## Single-item pay path (`POST /api/orders/pay`, part_000:542-583) -/

/-- Response of the `/api/orders/pay` handler. -/
inductive PayOutcome
  | unverifiedAgent
  | productNotFound
  | insufficientWallet
  | walletPaid (orderId : Nat)
  | thrown (msg : String)
  | gatewayInitFailed
  | gatewayInit (body : PaystackInitBody)
deriving DecidableEq, Repr

/-- `const amountToCharge = (user.role === 'agent') ? p.agentPrice :
p.userPrice` (part_000:572) — the raw decimal GHS price, with no minor-unit
conversion. -/
def ordersPayAmountToCharge (user : JwtUser) (p : Product) : Option Rat :=
  if user.role = "agent" then p.agentPrice else p.userPrice

/-- The init body built inside the `try` of the pay path's Paystack branch
(part_000:573-577).  Evaluating `metadata.userId` reads
`user._id.toString()`, and `user._id` is `undefined` on the JWT payload, so
the construction throws before `fetch` runs. -/
def ordersPayInitBody (user : JwtUser) (p : Product) (productId : String) :
    Except String PaystackInitBody :=
  match user.mongoId with
  | none => .error "TypeError: cannot read toString of undefined"
  | some uid =>
      .ok { amount := ordersPayAmountToCharge user p,
            email := user.username,
            currency := "GHS",
            metadataType := "order",
            metadataUserId := some uid,
            metadataProductId := some productId }

/-- The `POST /api/orders/pay` handler (part_000:542-583).  The wallet
branch (part_000:554-565) reads `(user.balance || 0)` off the JWT payload
and compares it — not the stored balance in `st.balance` — against the
role price; `!priceForRole` also fails as insufficient.  Reaching the
deduction would evaluate `user._id.toString()` outside any `try` and
throw. -/
def ordersPay (catalog : Catalog) (user : JwtUser) (productId : String)
    (useWallet : Bool) (st : CheckoutState) : PayOutcome × CheckoutState :=
  if user.role = "agent" ∧ ¬ (user.isVerifiedField.getD false) then
    (.unverifiedAgent, st)
  else
    match catalog productId with
    | none => (.productNotFound, st)
    | some p =>
        if useWallet ∧ (user.role = "agent" ∨ user.role = "admin") then
          let balance := user.balanceField.getD 0
          match (if user.role = "agent" then p.agentPrice else p.userPrice) with
          | none => (.insufficientWallet, st)
          | some pr =>
              if pr = 0 then (.insufficientWallet, st)
              else if balance < pr then (.insufficientWallet, st)
              else (.thrown "TypeError: cannot read toString of undefined", st)
        else
          match ordersPayInitBody user p productId with
          | .error _ => (.gatewayInitFailed, st)
          | .ok body => (.gatewayInit body, st)

/-! ## Paystack webhook order fan-out (`POST /api/paystack/webhook`,
part_000:156-218, `metadata.type === "order"` branch) -/

/-- One unit of one metadata-cart line in the Paystack webhook: fresh
product lookup, `createCompletedOrder` with `paymentStatus: "success"` and
NO `priceOverride` — a creation failure here is not caught inside the loop
and aborts the whole webhook — then dispatch when the product exists and a
phone number is present. -/
def webhookUnit (catalog : Catalog) (userId : String) (item : CartItem)
    (vr : Except String PurchaseResult) (st : CheckoutState) :
    Except String (CheckoutState × Bool) :=
  let pOpt := catalog item.productId
  let phone := jsStrOr item.phoneNumber ""
  match createCompletedOrder catalog
    { productId := item.productId, userId := userId,
      phoneNumber := some phone,
      paymentStatus := some "success",
      productName := pOpt.map Product.name,
      statusOverride := if pOpt.isSome ∧ phone ≠ "" then some "processing" else none }
    st.nextOrderId with
  | .error e => .error e
  | .ok order =>
      let st1 := { st with orders := st.orders ++ [order], nextOrderId := st.nextOrderId + 1 }
      if pOpt.isSome ∧ phone ≠ "" then
        match vr with
        | .ok r =>
            .ok ({ st1 with orders := updateOrderById st1.orders order.id (applyDispatchResult · r) }, true)
        | .error msg =>
            .ok ({ st1 with orders := updateOrderById st1.orders order.id (applyDispatchCatchWebhook · msg) }, true)
      else .ok (st1, false)

/-- Quantity fan-out for one metadata-cart line of the Paystack webhook
(part_000:165-167: `const qty = item.quantity || 1`). -/
def webhookUnits (catalog : Catalog) (userId : String) (item : CartItem)
    (vendor : Nat → Except String PurchaseResult) :
    (n k : Nat) → CheckoutState → Except String (CheckoutState × Nat)
  | 0, k, st => .ok (st, k)
  | n + 1, k, st =>
      match webhookUnit catalog userId item (vendor k) st with
      | .error e => .error e
      | .ok (st1, used) =>
          webhookUnits catalog userId item vendor n (if used then k + 1 else k) st1

/-- The Paystack webhook's loop over the metadata cart, followed by
`clearCart` (part_000:217) only when every line was processed without a
throw. -/
def webhookOrderLoop (catalog : Catalog) (userId : String)
    (vendor : Nat → Except String PurchaseResult) :
    List CartItem → Nat → CheckoutState → Except String (CheckoutState × Nat)
  | [], k, st => .ok (st, k)
  | item :: rest, k, st =>
      match webhookUnits catalog userId item vendor (qtyOrOne item.quantity) k st with
      | .error e => .error e
      | .ok (st1, k1) => webhookOrderLoop catalog userId vendor rest k1 st1

/-! ## Portal-02 vendor webhook (`POST /api/webhooks/portal02`,
part_000:230-278, and `processWebhookPayload`, portal02Service.ts:147) -/

/-- The duck-typed JSON body of a vendor webhook. -/
structure WebhookPayload where
  event : Option String := none
  eventType : Option String := none
  orderId : Option String := none
  orderIdSnake : Option String := none
  idField : Option String := none
  reference : Option String := none
  status : Option String := none
  recipient : Option String := none
  volume : Option Int := none
  timestamp : Option Nat := none
deriving DecidableEq, Repr

/-- The parsed event returned by a successful `processWebhookPayload`. -/
structure ParsedEvent where
  event : String
  orderId : Option String
  reference : Option String
  status : String
  recipient : Option String
  volume : Option Int
  timestamp : Nat
deriving DecidableEq, Repr

/-- `validStatuses` (portal02Service.ts:155). -/
def validStatuses : List String :=
  ["pending", "processing", "delivered", "failed", "cancelled", "refunded", "resolved"]

/-- `processWebhookPayload` (portal02Service.ts:147-169).  `none` is the
`{ success: false }` rejection for an unknown event or invalid status.
`now` stands for `new Date()`; a `0` timestamp is falsy in JS and also
falls back to `now`. -/
def processWebhookPayload (now : Nat) (p : WebhookPayload) : Option ParsedEvent :=
  let event := jsOr p.event p.eventType
  match event with
  | none => none
  | some ev =>
      if ev = "order.status.updated" ∨ ev = "order.status_update" then
        let orderId := jsOr p.orderId (jsOr p.orderIdSnake p.idField)
        let reference := jsOr p.reference orderId
        match p.status with
        | none => none
        | some s =>
            if validStatuses.contains s then
              some { event := ev, orderId := orderId, reference := reference,
                     status := s, recipient := p.recipient, volume := p.volume,
                     timestamp := match p.timestamp with
                                  | none => now
                                  | some t => if t = 0 then now else t }
            else none
      else none

/-- The status derivation of the vendor-webhook handler (part_000:240). -/
def derivedStatus (s : String) : String :=
  if s = "delivered" ∨ s = "resolved" then "completed"
  else if s = "failed" ∨ s = "cancelled" ∨ s = "refunded" then "failed"
  else "processing"

/-- The `$or` match of `Order.findOneAndUpdate` (part_000:243-252).
Equality of optional ids models Mongo field equality against the possibly
absent `orderId`/`reference` of the event. -/
def orderMatches (o : OrderRec) (ev : ParsedEvent) : Bool :=
  o.vendorOrderId == ev.orderId || o.vendorOrderId == ev.reference ||
  o.processingResults.any (fun pr => pr.transactionId == ev.orderId) ||
  o.processingResults.any (fun pr => pr.transactionId == ev.reference) ||
  o.processingResults.any (fun pr => pr.reference == ev.orderId) ||
  o.processingResults.any (fun pr => pr.reference == ev.reference)

/-- The `webhookHistory` entry pushed by the handler (part_000:255-265). -/
def mkWebhookEntry (ev : ParsedEvent) : WebhookEntry :=
  { event := some ev.event, orderId := ev.orderId, reference := ev.reference,
    status := some ev.status, recipient := ev.recipient, volume := ev.volume,
    timestamp := ev.timestamp }

/-- The `$set`/`$push` update applied to the matched order (part_000:253-266). -/
def applyVendorWebhook (o : OrderRec) (ev : ParsedEvent) : OrderRec :=
  { o with status := derivedStatus ev.status,
           webhookHistory := o.webhookHistory ++ [mkWebhookEntry ev] }

/-- `findOneAndUpdate`: update the first matching order, if any. -/
def updateFirstMatch : List OrderRec → ParsedEvent → List OrderRec
  | [], _ => []
  | o :: rest, ev =>
      if orderMatches o ev then applyVendorWebhook o ev :: rest
      else o :: updateFirstMatch rest ev

/-- The `POST /api/webhooks/portal02` handler (part_000:230-278): parse,
silently acknowledge rejected payloads, otherwise update the first order
matched by the `$or` query. -/
def portal02Handler (now : Nat) (orders : List OrderRec) (payload : WebhookPayload) :
    List OrderRec :=
  match processWebhookPayload now payload with
  | none => orders
  | some ev => updateFirstMatch orders ev

/-- Did an awaited dispatch (`purchaseDataBundleWithRetry` inside a
handler) end in failure — either a resolved result with `success: false`
or a thrown error? -/
def dispatchFailed : Except String PurchaseResult → Bool
  | .ok r => !r.success
  | .error _ => true

/-- The error a failed dispatch carries: the result's `error` field, or
the thrown message. -/
def dispatchErrOf : Except String PurchaseResult → Option String
  | .ok r => r.error
  | .error m => some m

/-- Store invariant: every persisted order has an id below the fresh-id
counter (ids are allocated in increasing order). -/
def idsBounded (st : CheckoutState) : Prop :=
  ∀ o ∈ st.orders, o.id < st.nextOrderId

/-- Decidable equality for `Except`, used to evaluate the embedded
handlers on concrete inputs. -/
instance exceptDecEq {e a : Type} [DecidableEq e] [DecidableEq a] :
    DecidableEq (Except e a) := fun x y =>
  match x, y with
  | .ok u, .ok v => decidable_of_iff (u = v) (by simp)
  | .ok _, .error _ => isFalse (by simp)
  | .error _, .ok _ => isFalse (by simp)
  | .error u, .error v => decidable_of_iff (u = v) (by simp)

/-! ## Basic lemmas -/

theorem listStartsWith_nil (l : List Char) : listStartsWith l [] = true := by
  cases l <;> rfl

theorem listContainsSub_nilPat (l : List Char) : listContainsSub l [] = true := by
  cases l with
  | nil => rfl
  | cons a as => simp [listContainsSub, listStartsWith_nil]

theorem listStartsWith_append (pat post : List Char) :
    listStartsWith (pat ++ post) pat = true := by
  induction pat with
  | nil => exact listStartsWith_nil post
  | cons c cs ih => simp [List.cons_append, listStartsWith, ih]

theorem listStartsWith_extend {l pat : List Char} (r : List Char)
    (h : listStartsWith l pat = true) : listStartsWith (l ++ r) pat = true := by
  induction pat generalizing l with
  | nil => exact listStartsWith_nil _
  | cons b bs ih =>
      cases l with
      | nil => exact absurd h (by simp [listStartsWith])
      | cons a as =>
          simp only [listStartsWith, Bool.and_eq_true] at h
          simp [List.cons_append, listStartsWith, h.1, ih h.2]

theorem listContainsSub_append_left (l r pat : List Char)
    (h : listContainsSub r pat = true) : listContainsSub (l ++ r) pat = true := by
  induction l with
  | nil => exact h
  | cons a as ih => simp [List.cons_append, listContainsSub, ih]

theorem listContainsSub_append_right (l r pat : List Char)
    (h : listContainsSub l pat = true) : listContainsSub (l ++ r) pat = true := by
  induction l with
  | nil =>
      have : pat = [] := by
        cases pat with
        | nil => rfl
        | cons b bs => simp [listContainsSub] at h
      subst this
      exact listContainsSub_nilPat r
  | cons a as ih =>
      simp only [listContainsSub, Bool.or_eq_true] at h
      rcases h with h | h
      · simp only [List.cons_append, listContainsSub, Bool.or_eq_true]
        exact Or.inl (listStartsWith_extend r h)
      · simp [List.cons_append, listContainsSub, ih h]

theorem strContainsSub_unsupported (v : Int) (network : String) :
    strContainsSub (unsupportedVolumeMsg v network) "not available" = true := by
  have hdata : (unsupportedVolumeMsg v network).toList
      = ((toString v).toList ++ "GB not available for ".toList) ++ network.toList := by
    simp [unsupportedVolumeMsg, String.toList, String.data_append]
  rw [strContainsSub, hdata]
  apply listContainsSub_append_right
  apply listContainsSub_append_left
  decide

theorem isValidationErrorMsg_unsupported (v : Int) (network : String) :
    isValidationErrorMsg (some (unsupportedVolumeMsg v network)) = true := by
  simp [isValidationErrorMsg, strContainsSub_unsupported]

theorem offerSlugs_isSome_of_available {network : String} {v : Int}
    (h : isVolumeAvailable network v = true) : (offerSlugs network).isSome = true := by
  by_cases h1 : network = "MTN"
  · simp [offerSlugs, h1]
  · by_cases h2 : network = "Telecel"
    · simp [offerSlugs, h1, h2]
    · by_cases h3 : network = "AirtelTigo"
      · simp [offerSlugs, h1, h2, h3]
      · simp [isVolumeAvailable, availableVolumes, h1, h2, h3] at h

theorem purchaseDataBundle_isOk (phone : String) (bs : BundleSize) (network : String)
    (ref : Option String) (outcome : VendorOutcome) :
    ∃ r c, purchaseDataBundle phone bs network ref outcome = .ok (r, c) := by
  unfold purchaseDataBundle
  by_cases h0 : extractVolumeNumber bs ≤ 0
  · simp [h0]
  · simp only [if_neg h0]
    by_cases h1 : isVolumeAvailable network (extractVolumeNumber bs) = true
    · rcases Option.isSome_iff_exists.mp (offerSlugs_isSome_of_available h1) with ⟨slug, hs⟩
      simp only [h1, not_true_eq_false, if_false, hs]
      cases outcome with
      | netError m => exact ⟨_, _, rfl⟩
      | response r =>
          by_cases hok : r.ok = true
          · simp [hok]
          · simp [hok]
    · simp [h1]

theorem purchaseDataBundle_unsupported (phone : String) (bs : BundleSize)
    (network : String) (ref : Option String) (outcome : VendorOutcome)
    (hv : 0 < extractVolumeNumber bs)
    (hna : isVolumeAvailable network (extractVolumeNumber bs) = false) :
    purchaseDataBundle phone bs network ref outcome
      = .ok ({ success := false,
               error := some (unsupportedVolumeMsg (extractVolumeNumber bs) network) }, false) := by
  unfold purchaseDataBundle
  rw [if_neg (by omega), if_pos (by simp [hna])]

/-! ## Lemmas about the vendor-webhook reconciliation -/

theorem orderMatches_applyVendorWebhook (o : OrderRec) (ev ev2 : ParsedEvent) :
    orderMatches (applyVendorWebhook o ev) ev2 = orderMatches o ev2 := rfl

theorem status_applyVendorWebhook (o : OrderRec) (ev : ParsedEvent) :
    (applyVendorWebhook o ev).status = derivedStatus ev.status := rfl

theorem updateFirstMatch_status_map (l : List OrderRec) (ev : ParsedEvent) :
    (updateFirstMatch (updateFirstMatch l ev) ev).map OrderRec.status
      = (updateFirstMatch l ev).map OrderRec.status := by
  induction l with
  | nil => rfl
  | cons o rest ih =>
      by_cases h : orderMatches o ev = true
      · simp only [updateFirstMatch, h, if_true, orderMatches_applyVendorWebhook,
          List.map_cons, status_applyVendorWebhook]
      · simp only [updateFirstMatch, h, if_false, Bool.false_eq_true, List.map_cons]
        rw [ih]

/-! ## Preservation lemmas for the wallet-checkout loop -/

theorem processUnit_balance (catalog : Catalog) (uid pid : String) (po : Option Rat)
    (phone : String) (p : Product) (vr : Except String PurchaseResult) (st : CheckoutState) :
    (processUnit catalog uid pid po phone p vr st).1.balance = st.balance := by
  unfold processUnit
  split
  · rfl
  · split
    · rfl
    · split <;> rfl

theorem processUnit_cart (catalog : Catalog) (uid pid : String) (po : Option Rat)
    (phone : String) (p : Product) (vr : Except String PurchaseResult) (st : CheckoutState) :
    (processUnit catalog uid pid po phone p vr st).1.cart = st.cart := by
  unfold processUnit
  split
  · rfl
  · split
    · rfl
    · split <;> rfl

theorem processUnit_no_debit (catalog : Catalog) (uid pid : String) (po : Option Rat)
    (phone : String) (p : Product) (vr : Except String PurchaseResult) (st : CheckoutState)
    (a : Rat) : Ev.debit a ∉ (processUnit catalog uid pid po phone p vr st).2.1 := by
  unfold processUnit
  split
  · simp
  · split
    · simp
    · split <;> simp

theorem processUnit_no_clear (catalog : Catalog) (uid pid : String) (po : Option Rat)
    (phone : String) (p : Product) (vr : Except String PurchaseResult) (st : CheckoutState) :
    Ev.cartCleared ∉ (processUnit catalog uid pid po phone p vr st).2.1 := by
  unfold processUnit
  split
  · simp
  · split
    · simp
    · split <;> simp

theorem processUnits_balance (catalog : Catalog) (uid pid : String) (po : Option Rat)
    (phone : String) (p : Product) (vendor : Nat → Except String PurchaseResult)
    (n : Nat) : ∀ (k : Nat) (st : CheckoutState),
    (processUnits catalog uid pid po phone p vendor n k st).1.balance = st.balance := by
  induction n with
  | zero => intro k st; rfl
  | succ n ih =>
      intro k st
      simp only [processUnits]
      rw [ih, processUnit_balance]

theorem processUnits_cart (catalog : Catalog) (uid pid : String) (po : Option Rat)
    (phone : String) (p : Product) (vendor : Nat → Except String PurchaseResult)
    (n : Nat) : ∀ (k : Nat) (st : CheckoutState),
    (processUnits catalog uid pid po phone p vendor n k st).1.cart = st.cart := by
  induction n with
  | zero => intro k st; rfl
  | succ n ih =>
      intro k st
      simp only [processUnits]
      rw [ih, processUnit_cart]

theorem processUnits_no_debit (catalog : Catalog) (uid pid : String) (po : Option Rat)
    (phone : String) (p : Product) (vendor : Nat → Except String PurchaseResult)
    (n : Nat) : ∀ (k : Nat) (st : CheckoutState) (a : Rat),
    Ev.debit a ∉ (processUnits catalog uid pid po phone p vendor n k st).2.1 := by
  induction n with
  | zero => intro k st a; simp [processUnits]
  | succ n ih =>
      intro k st a
      simp only [processUnits, List.mem_append]
      push_neg
      exact ⟨processUnit_no_debit _ _ _ _ _ _ _ _ _, ih _ _ _⟩

theorem processUnits_no_clear (catalog : Catalog) (uid pid : String) (po : Option Rat)
    (phone : String) (p : Product) (vendor : Nat → Except String PurchaseResult)
    (n : Nat) : ∀ (k : Nat) (st : CheckoutState),
    Ev.cartCleared ∉ (processUnits catalog uid pid po phone p vendor n k st).2.1 := by
  induction n with
  | zero => intro k st; simp [processUnits]
  | succ n ih =>
      intro k st
      simp only [processUnits, List.mem_append]
      push_neg
      exact ⟨processUnit_no_clear _ _ _ _ _ _ _ _, ih _ _⟩

theorem processItem_balance (catalog : Catalog) (role uid : String)
    (vendor : Nat → Except String PurchaseResult) (item : CartItem) (k : Nat)
    (st : CheckoutState) :
    (processItem catalog role uid vendor item k st).2.1.balance = st.balance := by
  unfold processItem
  split
  · rfl
  · exact processUnits_balance _ _ _ _ _ _ _ _ _ _

theorem processItem_cart (catalog : Catalog) (role uid : String)
    (vendor : Nat → Except String PurchaseResult) (item : CartItem) (k : Nat)
    (st : CheckoutState) :
    (processItem catalog role uid vendor item k st).2.1.cart = st.cart := by
  unfold processItem
  split
  · rfl
  · exact processUnits_cart _ _ _ _ _ _ _ _ _ _

theorem processItem_no_debit (catalog : Catalog) (role uid : String)
    (vendor : Nat → Except String PurchaseResult) (item : CartItem) (k : Nat)
    (st : CheckoutState) (a : Rat) :
    Ev.debit a ∉ (processItem catalog role uid vendor item k st).2.2.1 := by
  unfold processItem
  split
  · simp
  · exact processUnits_no_debit _ _ _ _ _ _ _ _ _ _ _

theorem processItem_no_clear (catalog : Catalog) (role uid : String)
    (vendor : Nat → Except String PurchaseResult) (item : CartItem) (k : Nat)
    (st : CheckoutState) :
    Ev.cartCleared ∉ (processItem catalog role uid vendor item k st).2.2.1 := by
  unfold processItem
  split
  · simp
  · exact processUnits_no_clear _ _ _ _ _ _ _ _ _ _

theorem walletLoop_balance (catalog : Catalog) (role uid : String)
    (vendor : Nat → Except String PurchaseResult) (items : List CartItem) :
    ∀ (k : Nat) (st : CheckoutState),
    (walletLoop catalog role uid vendor items k st).2.1.balance = st.balance := by
  induction items with
  | nil => intro k st; rfl
  | cons item rest ih =>
      intro k st
      unfold walletLoop
      cases hpi : processItem catalog role uid vendor item k st with
      | mk e tl =>
          cases e with
          | some msg =>
              have := processItem_balance catalog role uid vendor item k st
              rw [hpi] at this
              simpa using this
          | none =>
              have hb := processItem_balance catalog role uid vendor item k st
              rw [hpi] at hb
              simp only []
              rw [ih]
              simpa using hb

theorem walletLoop_cart (catalog : Catalog) (role uid : String)
    (vendor : Nat → Except String PurchaseResult) (items : List CartItem) :
    ∀ (k : Nat) (st : CheckoutState),
    (walletLoop catalog role uid vendor items k st).2.1.cart = st.cart := by
  induction items with
  | nil => intro k st; rfl
  | cons item rest ih =>
      intro k st
      unfold walletLoop
      cases hpi : processItem catalog role uid vendor item k st with
      | mk e tl =>
          cases e with
          | some msg =>
              have := processItem_cart catalog role uid vendor item k st
              rw [hpi] at this
              simpa using this
          | none =>
              have hb := processItem_cart catalog role uid vendor item k st
              rw [hpi] at hb
              simp only []
              rw [ih]
              simpa using hb

theorem walletLoop_no_debit (catalog : Catalog) (role uid : String)
    (vendor : Nat → Except String PurchaseResult) (items : List CartItem) :
    ∀ (k : Nat) (st : CheckoutState) (a : Rat),
    Ev.debit a ∉ (walletLoop catalog role uid vendor items k st).2.2.1 := by
  induction items with
  | nil => intro k st a; simp [walletLoop]
  | cons item rest ih =>
      intro k st a
      unfold walletLoop
      rcases hpi : processItem catalog role uid vendor item k st with ⟨e, st1, evs, ids, k1⟩
      have hev := processItem_no_debit catalog role uid vendor item k st a
      rw [hpi] at hev
      cases e with
      | some msg => simpa using hev
      | none =>
          simp only [List.mem_append]
          push_neg
          exact ⟨by simpa using hev, ih _ _ _⟩

theorem walletLoop_no_clear (catalog : Catalog) (role uid : String)
    (vendor : Nat → Except String PurchaseResult) (items : List CartItem) :
    ∀ (k : Nat) (st : CheckoutState),
    Ev.cartCleared ∉ (walletLoop catalog role uid vendor items k st).2.2.1 := by
  induction items with
  | nil => intro k st; simp [walletLoop]
  | cons item rest ih =>
      intro k st
      unfold walletLoop
      rcases hpi : processItem catalog role uid vendor item k st with ⟨e, st1, evs, ids, k1⟩
      have hev := processItem_no_clear catalog role uid vendor item k st
      rw [hpi] at hev
      cases e with
      | some msg => simpa using hev
      | none =>
          simp only [List.mem_append]
          push_neg
          exact ⟨by simpa using hev, ih _ _⟩

theorem processItem_none_of_present (catalog : Catalog) (role uid : String)
    (vendor : Nat → Except String PurchaseResult) (item : CartItem) (k : Nat)
    (st : CheckoutState) (h : (catalog item.productId).isSome = true) :
    (processItem catalog role uid vendor item k st).1 = none := by
  rcases Option.isSome_iff_exists.mp h with ⟨p, hp⟩
  unfold processItem
  rw [hp]

theorem walletLoop_none_of_present (catalog : Catalog) (role uid : String)
    (vendor : Nat → Except String PurchaseResult) (items : List CartItem)
    (hpres : ∀ it ∈ items, (catalog it.productId).isSome = true) :
    ∀ (k : Nat) (st : CheckoutState),
    (walletLoop catalog role uid vendor items k st).1 = none := by
  induction items with
  | nil => intro k st; rfl
  | cons item rest ih =>
      intro k st
      unfold walletLoop
      rcases hpi : processItem catalog role uid vendor item k st with ⟨e, st1, evs, ids, k1⟩
      have hnone := processItem_none_of_present catalog role uid vendor item k st
        (hpres item (List.mem_cons_self _ _))
      rw [hpi] at hnone
      simp only at hnone
      subst hnone
      simp only []
      exact ih (fun it hit => hpres it (List.mem_cons_of_mem _ hit)) _ _

theorem walletLoop_throws_of_missing (catalog : Catalog) (role uid : String)
    (vendor : Nat → Except String PurchaseResult) (items : List CartItem)
    (hmiss : ∃ it ∈ items, catalog it.productId = none) :
    ∀ (k : Nat) (st : CheckoutState),
    ((walletLoop catalog role uid vendor items k st).1).isSome = true := by
  induction items with
  | nil => rcases hmiss with ⟨it, hmem, _⟩; cases hmem
  | cons item rest ih =>
      intro k st
      unfold walletLoop
      by_cases hhead : catalog item.productId = none
      · have : processItem catalog role uid vendor item k st
            = (some (missingProductTypeError role), st, [], [], k) := by
          unfold processItem
          rw [hhead]
        rw [this]
        rfl
      · rcases hpi : processItem catalog role uid vendor item k st with ⟨e, st1, evs, ids, k1⟩
        have hnone := processItem_none_of_present catalog role uid vendor item k st
          (by cases hcat : catalog item.productId with
              | none => exact absurd hcat hhead
              | some p => simp [hcat])
        rw [hpi] at hnone
        simp only at hnone
        subst hnone
        simp only []
        apply ih
        rcases hmiss with ⟨it, hmem, hit⟩
        rcases List.mem_cons.mp hmem with rfl | hmem2
        · exact absurd hit hhead
        · exact ⟨it, hmem2, hit⟩

theorem updateOrderById_append_fresh (o : OrderRec) (f : OrderRec → OrderRec) :
    ∀ (l : List OrderRec), (∀ x ∈ l, x.id ≠ o.id) →
    updateOrderById (l ++ [o]) o.id f = l ++ [f o] := by
  intro l
  induction l with
  | nil => intro _; simp [updateOrderById]
  | cons x xs ih =>
      intro hfresh
      simp only [updateOrderById, List.cons_append, List.map_cons]
      rw [if_neg (hfresh x (List.mem_cons_self _ _))]
      have hrest := ih fun y hy => hfresh y (List.mem_cons_of_mem _ hy)
      simp only [updateOrderById] at hrest
      rw [hrest]

theorem createCompletedOrder_ok (catalog : Catalog) (args : CreateOrderArgs)
    (oid : Nat) (p : Product) (price : Rat)
    (hcat : catalog args.productId = some p)
    (hprice : (match args.priceOverride with | some x => some x | none => p.price) = some price) :
    createCompletedOrder catalog args oid = .ok (mkCompletedOrder p args price oid) := by
  unfold createCompletedOrder
  rw [hcat]
  simp only [hprice]

theorem processUnit_dispatch_failure (catalog : Catalog) (uid pid phone : String)
    (p : Product) (po : Option Rat) (vr : Except String PurchaseResult)
    (st : CheckoutState)
    (hcat : catalog pid = some p) (hphone : phone ≠ "")
    (hpr : (match po with | some x => some x | none => p.price).isSome = true)
    (hfresh : ∀ o ∈ st.orders, o.id ≠ st.nextOrderId)
    (hfail : dispatchFailed vr = true) :
    ∃ o, (processUnit catalog uid pid po phone p vr st).1.orders = st.orders ++ [o]
      ∧ o.status = "failed"
      ∧ (∃ pr0 tail, o.processingResults = pr0 :: tail
          ∧ pr0.success = false ∧ pr0.error = dispatchErrOf vr)
      ∧ (processUnit catalog uid pid po phone p vr st).1.balance = st.balance := by
  rcases Option.isSome_iff_exists.mp hpr with ⟨price, hprice⟩
  have hco : createCompletedOrder catalog
      { productId := pid, userId := uid, priceOverride := po,
        phoneNumber := some phone, productName := some p.name,
        statusOverride := if phone ≠ "" then some "processing" else none }
      st.nextOrderId
    = .ok (mkCompletedOrder p
        { productId := pid, userId := uid, priceOverride := po,
          phoneNumber := some phone, productName := some p.name,
          statusOverride := if phone ≠ "" then some "processing" else none }
        price st.nextOrderId) :=
    createCompletedOrder_ok _ _ _ _ _ hcat hprice
  cases vr with
  | ok r =>
      have hrs : r.success = false := by simpa [dispatchFailed] using hfail
      refine ⟨applyDispatchResult (mkCompletedOrder p
        { productId := pid, userId := uid, priceOverride := po,
          phoneNumber := some phone, productName := some p.name,
          statusOverride := if phone ≠ "" then some "processing" else none }
        price st.nextOrderId) r, ?_, ?_, ?_,
        processUnit_balance _ _ _ _ _ _ _ _⟩
      · unfold processUnit
        rw [hco]
        simp only [if_neg hphone]
        exact updateOrderById_append_fresh _ _ st.orders hfresh
      · simp [applyDispatchResult, hrs]
      · exact ⟨_, [], rfl, hrs, rfl⟩
  | error m =>
      refine ⟨applyDispatchCatch (mkCompletedOrder p
        { productId := pid, userId := uid, priceOverride := po,
          phoneNumber := some phone, productName := some p.name,
          statusOverride := if phone ≠ "" then some "processing" else none }
        price st.nextOrderId) m, ?_, rfl, ⟨_, [], rfl, rfl, rfl⟩,
        processUnit_balance _ _ _ _ _ _ _ _⟩
      unfold processUnit
      rw [hco]
      simp only [if_neg hphone]
      exact updateOrderById_append_fresh _ _ st.orders hfresh

/-- C3: in wallet checkout with sufficient balance, the ledger is debited
for the full total strictly before any order is created; a failed vendor
dispatch leaves the wallet debit in place and persists the order with
status "failed" and the error in `processingResults[0]`; and the cart is
cleared only after all orders have been created. -/
theorem claim_c3_wallet_checkout (catalog : Catalog) (user : JwtUser)
    (vendor : Nat → Except String PurchaseResult) (st : CheckoutState)
    (hrole : user.role = "agent") (hne : st.cart ≠ [])
    (hpres : ∀ it ∈ st.cart, (catalog it.productId).isSome = true)
    (htot : 0 ≤ computeTotal catalog "agent" st.cart)
    (hbal : computeTotal catalog "agent" st.cart ≤ st.balance) :
    (∃ ids, (cartCheckout catalog user "wallet" vendor st).1 = .ok ids)
    ∧ (cartCheckout catalog user "wallet" vendor st).2.1.balance
        = st.balance - computeTotal catalog "agent" st.cart
    ∧ (cartCheckout catalog user "wallet" vendor st).2.1.cart = []
    ∧ (∃ mid, (cartCheckout catalog user "wallet" vendor st).2.2
          = .debit (computeTotal catalog "agent" st.cart) :: mid ++ [.cartCleared]
        ∧ (∀ a, Ev.debit a ∉ mid) ∧ Ev.cartCleared ∉ mid)
    ∧ (∀ (catalog0 : Catalog) (uid pid phone : String) (p : Product) (po : Option Rat)
          (vr : Except String PurchaseResult) (st0 : CheckoutState),
        catalog0 pid = some p → phone ≠ "" →
        (match po with | some x => some x | none => p.price).isSome = true →
        (∀ o ∈ st0.orders, o.id ≠ st0.nextOrderId) →
        dispatchFailed vr = true →
        ∃ o, (processUnit catalog0 uid pid po phone p vr st0).1.orders = st0.orders ++ [o]
          ∧ o.status = "failed"
          ∧ (∃ pr0 tail, o.processingResults = pr0 :: tail
              ∧ pr0.success = false ∧ pr0.error = dispatchErrOf vr)
          ∧ (processUnit catalog0 uid pid po phone p vr st0).1.balance = st0.balance) := by
  have hempty : st.cart.isEmpty = false := by
    cases hc : st.cart with
    | nil => exact absurd hc hne
    | cons a l => rfl
  have habs : |computeTotal catalog "agent" st.cart| = computeTotal catalog "agent" st.cart :=
    abs_of_nonneg htot
  rcases hwl : walletLoop catalog "agent" user.id vendor st.cart 0
      { st with balance := deductAgentBalance st.balance (computeTotal catalog "agent" st.cart) }
    with ⟨e, st2, evs, ids, kfin⟩
  have hnone := walletLoop_none_of_present catalog "agent" user.id vendor st.cart hpres 0
      { st with balance := deductAgentBalance st.balance (computeTotal catalog "agent" st.cart) }
  rw [hwl] at hnone
  simp only at hnone
  subst hnone
  have hred : cartCheckout catalog user "wallet" vendor st
      = (.ok ids, { st2 with cart := [] },
         .debit (computeTotal catalog "agent" st.cart) :: (evs ++ [.cartCleared])) := by
    simp only [cartCheckout, hempty, Bool.false_eq_true, if_false, hrole, if_pos rfl, ne_eq,
      not_true_eq_false, if_neg (not_lt.mpr hbal)]
    rw [hwl]
    simp
  have hbaleq := walletLoop_balance catalog "agent" user.id vendor st.cart 0
      { st with balance := deductAgentBalance st.balance (computeTotal catalog "agent" st.cart) }
  rw [hwl] at hbaleq
  refine ⟨⟨ids, by rw [hred]⟩, ?_, by rw [hred], ?_, ?_⟩
  · rw [hred]
    simpa [deductAgentBalance, habs] using hbaleq
  · refine ⟨evs, by rw [hred]; rfl, ?_, ?_⟩
    · intro a
      have := walletLoop_no_debit catalog "agent" user.id vendor st.cart 0
        { st with balance := deductAgentBalance st.balance (computeTotal catalog "agent" st.cart) } a
      rw [hwl] at this
      simpa using this
    · have := walletLoop_no_clear catalog "agent" user.id vendor st.cart 0
        { st with balance := deductAgentBalance st.balance (computeTotal catalog "agent" st.cart) }
      rw [hwl] at this
      simpa using this
  · intro catalog0 uid pid phone p po vr st0 hcat hphone hpr hfresh hfail
    exact processUnit_dispatch_failure catalog0 uid pid phone p po vr st0 hcat hphone hpr hfresh hfail

/-- Witness for C3 at a concrete one-line cart with a failing vendor. -/
theorem claim_c3_wallet_checkout_witness :
    ∃ ids,
      (cartCheckout
        (fun pid => if pid = "p1" then
          some { id := "p1", name := "MTN 1GB", network := "MTN", dataAmount := "1GB",
                 price := some 10, userPrice := some 12, agentPrice := some 9 }
          else none)
        { id := "u1", username := "aku", role := "agent" }
        "wallet"
        (fun _ => .ok { success := false, error := some "HTTP 500" })
        { balance := 20, orders := [],
          cart := [{ productId := "p1", quantity := 1, phoneNumber := some "0241234567" }],
          nextOrderId := 0 }).1 = .ok ids :=
  (claim_c3_wallet_checkout _ _ _ _ (by decide) (by decide) (by decide)
    (by norm_num [computeTotal, rolePrice, qtyOrOne])
    (by norm_num [computeTotal, rolePrice, qtyOrOne])).1

theorem computeTotal_skips_missing (catalog : Catalog) (role : String)
    (cart : List CartItem) :
    computeTotal catalog role cart
      = computeTotal catalog role (cart.filter fun it => (catalog it.productId).isSome) := by
  suffices h : ∀ (cart : List CartItem) (acc : Rat),
      List.foldl (fun total item =>
        match catalog item.productId with
        | none => total
        | some p => total + (rolePrice role p).getD 0 * (qtyOrOne item.quantity : Rat)) acc cart
      = List.foldl (fun total item =>
        match catalog item.productId with
        | none => total
        | some p => total + (rolePrice role p).getD 0 * (qtyOrOne item.quantity : Rat)) acc
          (cart.filter fun it => (catalog it.productId).isSome) by
    simpa [computeTotal] using h cart 0
  intro cart
  induction cart with
  | nil => intro acc; rfl
  | cons it rest ih =>
      intro acc
      cases hcat : catalog it.productId with
      | none => simp [List.filter_cons, hcat, ih, List.foldl_cons]
      | some p => simp [List.filter_cons, hcat, ih, List.foldl_cons]

/-- C4 amended: a cart line whose product is missing contributes nothing to
the checkout total (it is silently skipped there), but in the wallet
order-creation phase a missing product raises a TypeError that aborts the
rest of the checkout: the handler throws and the cart is left uncleared. -/
theorem claim_c4_amended :
    (∀ (catalog : Catalog) (role : String) (cart : List CartItem),
      computeTotal catalog role cart
        = computeTotal catalog role (cart.filter fun it => (catalog it.productId).isSome))
    ∧ (∀ (catalog : Catalog) (user : JwtUser) (vendor : Nat → Except String PurchaseResult)
          (st : CheckoutState),
        user.role = "agent" → st.cart ≠ [] →
        computeTotal catalog "agent" st.cart ≤ st.balance →
        (∃ it ∈ st.cart, catalog it.productId = none) →
        ∃ msg, (cartCheckout catalog user "wallet" vendor st).1 = .thrown msg
          ∧ (cartCheckout catalog user "wallet" vendor st).2.1.cart = st.cart) := by
  refine ⟨computeTotal_skips_missing, ?_⟩
  intro catalog user vendor st hrole hne hbal hmiss
  have hempty : st.cart.isEmpty = false := by
    cases hc : st.cart with
    | nil => exact absurd hc hne
    | cons a l => rfl
  rcases hwl : walletLoop catalog "agent" user.id vendor st.cart 0
      { st with balance := deductAgentBalance st.balance (computeTotal catalog "agent" st.cart) }
    with ⟨e, st2, evs, ids, kfin⟩
  have hsome := walletLoop_throws_of_missing catalog "agent" user.id vendor st.cart hmiss 0
      { st with balance := deductAgentBalance st.balance (computeTotal catalog "agent" st.cart) }
  rw [hwl] at hsome
  simp only [Option.isSome_iff_exists] at hsome
  rcases hsome with ⟨msg, hmsg⟩
  subst hmsg
  have hcart := walletLoop_cart catalog "agent" user.id vendor st.cart 0
      { st with balance := deductAgentBalance st.balance (computeTotal catalog "agent" st.cart) }
  rw [hwl] at hcart
  simp only at hcart
  have hred : cartCheckout catalog user "wallet" vendor st
      = (.thrown msg, st2,
         .debit (computeTotal catalog "agent" st.cart) :: evs) := by
    simp only [cartCheckout, hempty, Bool.false_eq_true, if_false, hrole, if_pos rfl, ne_eq,
      not_true_eq_false, if_neg (not_lt.mpr hbal)]
    rw [hwl]
    simp
  exact ⟨msg, by rw [hred], by rw [hred]; exact hcart⟩

/-- Witness for the amended C4 at a concrete cart whose only product id is
absent from the catalog. -/
theorem claim_c4_amended_witness :
    ∃ msg,
      (cartCheckout (fun _ => none) { id := "u1", username := "aku", role := "agent" }
        "wallet" (fun _ => .ok { success := true })
        { balance := 0, orders := [],
          cart := [{ productId := "ghost", quantity := 1, phoneNumber := none }],
          nextOrderId := 0 }).1 = .thrown msg
      ∧ (cartCheckout (fun _ => none) { id := "u1", username := "aku", role := "agent" }
        "wallet" (fun _ => .ok { success := true })
        { balance := 0, orders := [],
          cart := [{ productId := "ghost", quantity := 1, phoneNumber := none }],
          nextOrderId := 0 }).2.1.cart
        = [{ productId := "ghost", quantity := 1, phoneNumber := none }] :=
  claim_c4_amended.2 _ _ _ _ (by decide) (by decide) (by decide)
    ⟨{ productId := "ghost", quantity := 1, phoneNumber := none }, by decide, by decide⟩

/-- C4 counterexample: with a single cart line whose product is missing
from the catalog, the wallet checkout aborts with a thrown TypeError and
the cart is not cleared — contradicting "missing products cause no error
or abort in any phase of the checkout". -/
theorem claim_c4_counterexample :
    (cartCheckout (fun _ => none) { id := "u9", username := "kofi", role := "agent" }
      "wallet" (fun _ => .ok { success := true })
      { balance := 50, orders := [],
        cart := [{ productId := "deleted-product", quantity := 2, phoneNumber := some "0241234567" }],
        nextOrderId := 3 }).1
      = .thrown (missingProductTypeError "agent")
    ∧ (cartCheckout (fun _ => none) { id := "u9", username := "kofi", role := "agent" }
      "wallet" (fun _ => .ok { success := true })
      { balance := 50, orders := [],
        cart := [{ productId := "deleted-product", quantity := 2, phoneNumber := some "0241234567" }],
        nextOrderId := 3 }).2.1.cart
      = [{ productId := "deleted-product", quantity := 2, phoneNumber := some "0241234567" }] := by
  decide

/-- C5: replaying the same vendor webhook against the same order store is
idempotent in the derived status of every order (`delivered`/`resolved`
map to `completed`, `failed`/`cancelled`/`refunded` to `failed`, the
remaining parseable statuses `pending`/`processing` to `processing`),
while each matched application appends exactly one `webhookHistory`
entry. -/
theorem claim_c5_webhook_status_idempotent :
    (∀ (orders : List OrderRec) (payload : WebhookPayload) (now : Nat),
      (portal02Handler now (portal02Handler now orders payload) payload).map OrderRec.status
        = (portal02Handler now orders payload).map OrderRec.status)
    ∧ derivedStatus "delivered" = "completed" ∧ derivedStatus "resolved" = "completed"
    ∧ derivedStatus "failed" = "failed" ∧ derivedStatus "cancelled" = "failed"
    ∧ derivedStatus "refunded" = "failed"
    ∧ derivedStatus "pending" = "processing" ∧ derivedStatus "processing" = "processing"
    ∧ (∀ (o : OrderRec) (ev : ParsedEvent),
        (applyVendorWebhook o ev).webhookHistory.length = o.webhookHistory.length + 1) := by
  refine ⟨?_, by decide, by decide, by decide, by decide, by decide, by decide, by decide,
    fun o ev => by simp [applyVendorWebhook]⟩
  intro orders payload now
  unfold portal02Handler
  cases hp : processWebhookPayload now payload with
  | none => rfl
  | some ev => exact updateFirstMatch_status_map orders ev

/-- C6 counterexample: a request whose extracted volume (0, from label
"0GB") is not in MTN's whitelist fails with "Invalid bundle size", not
with the unsupported-volume error the claim names — though still with no
outbound call. -/
theorem claim_c6_counterexample :
    isVolumeAvailable "MTN" (extractVolumeNumber (.str "0GB")) = false
    ∧ purchaseDataBundle "0241234567" (.str "0GB") "MTN" none (.netError "x")
        = .ok ({ success := false, error := some "Invalid bundle size" }, false)
    ∧ "Invalid bundle size" ≠ unsupportedVolumeMsg (extractVolumeNumber (.str "0GB")) "MTN" := by
  decide

/-- C6 amended: for every purchase request whose extracted volume is
positive but not in the requested network's whitelist (unknown networks
have an empty whitelist), the client fails immediately with the
unsupported-volume error, makes no outbound vendor call, and the retry
wrapper classifies the error as non-retryable: exactly one attempt and
zero vendor calls.  (A request whose extracted volume is ≤ 0 also fails
immediately with no call, but with the distinct error "Invalid bundle
size".) -/
theorem claim_c6_amended (phone : String) (bs : BundleSize) (network : String)
    (ref : Option String) (oracle : Nat → VendorOutcome)
    (hv : 0 < extractVolumeNumber bs)
    (hna : isVolumeAvailable network (extractVolumeNumber bs) = false) :
    (∀ outcome, purchaseDataBundle phone bs network ref outcome
      = .ok ({ success := false,
               error := some (unsupportedVolumeMsg (extractVolumeNumber bs) network) }, false))
    ∧ purchaseDataBundleWithRetry phone bs network ref oracle 2
      = .ok { result := { success := false,
                          error := some (unsupportedVolumeMsg (extractVolumeNumber bs) network) },
              attempts := 1, waits := [], calls := 0 } := by
  constructor
  · intro outcome
    exact purchaseDataBundle_unsupported phone bs network ref outcome hv hna
  · unfold purchaseDataBundleWithRetry retryLoop
    rw [purchaseDataBundle_unsupported phone bs network ref (oracle 0) hv hna]
    simp [isValidationErrorMsg_unsupported]

/-- Witness for the amended C6: 7GB on Telecel (whitelist
{5,10,15,20,25,30,40,50,100}). -/
theorem claim_c6_amended_witness :
    (∀ outcome, purchaseDataBundle "0241234567" (.str "7GB") "Telecel" none outcome
      = .ok ({ success := false,
               error := some (unsupportedVolumeMsg (extractVolumeNumber (.str "7GB")) "Telecel") }, false))
    ∧ purchaseDataBundleWithRetry "0241234567" (.str "7GB") "Telecel" none
        (fun _ => .netError "boom") 2
      = .ok { result := { success := false,
                          error := some (unsupportedVolumeMsg (extractVolumeNumber (.str "7GB")) "Telecel") },
              attempts := 1, waits := [], calls := 0 } :=
  claim_c6_amended _ _ _ _ _ (by decide) (by decide)

theorem isVolumeAvailable_512 (network : String) :
    isVolumeAvailable network 512 = false := by
  unfold isVolumeAvailable availableVolumes
  split_ifs <;> rfl

/-- C10 counterexample: the bundle label "5MB" extracts to volume 5, which
IS in MTN's GB whitelist, so the purchase proceeds and the outbound vendor
call is made — MB-labelled bundles are not universally rejected. -/
theorem claim_c10_counterexample :
    extractVolumeNumber (.str "5MB") = 5
    ∧ isVolumeAvailable "MTN" 5 = true
    ∧ purchaseDataBundle "0241234567" (.str "5MB") "MTN" none
        (.response { ok := true, statusCode := 200, orderId := some "VO-1" })
      = .ok ({ success := true, transactionId := some "VO-1", reference := some "VO-1",
               status := some "pending", message := some "Order submitted to Portal-02" },
             true) := by
  decide

/-- C10 amended: the first number of a bundle label is read as a whole GB
count with decimals truncated ("1.5GB" gives 1); "512MB" gives 512, which
is in no network's whitelist, so such a request always fails as
unavailable with no vendor call; but an MB label whose number is itself
whitelisted (such as "5MB" on MTN) is treated as that many GB and IS
dispatched. -/
theorem claim_c10_amended :
    extractVolumeNumber (.str "1.5GB") = 1
    ∧ extractVolumeNumber (.str "512MB") = 512
    ∧ (∀ network : String, isVolumeAvailable network 512 = false)
    ∧ (∀ (phone network : String) (ref : Option String) (outcome : VendorOutcome),
        purchaseDataBundle phone (.str "512MB") network ref outcome
          = .ok ({ success := false,
                   error := some (unsupportedVolumeMsg 512 network) }, false))
    ∧ (purchaseDataBundle "0241234567" (.str "5MB") "MTN" none
        (.response { ok := true, statusCode := 200, orderId := some "VO-1" })).map
          (fun rc => rc.2)
      = .ok true := by
  refine ⟨by decide, by decide, isVolumeAvailable_512, ?_, by decide⟩
  intro phone network ref outcome
  have h := purchaseDataBundle_unsupported phone (.str "512MB") network ref outcome
    (by decide) (by rw [show extractVolumeNumber (.str "512MB") = 512 from by decide]
                    exact isVolumeAvailable_512 network)
  rw [show extractVolumeNumber (.str "512MB") = 512 from by decide] at h
  exact h

/-- C1 evaluated at the failing input: on `POST /api/orders/pay` with
wallet payment, an admin whose stored balance (100) amply covers the
product price (5) is still rejected as insufficient, and nothing is
debited — the handler compares the price against `user.balance` read off
the JWT payload (undefined, hence 0), never against the stored balance. -/
theorem claim_c1_ordersPay_ignores_stored_balance :
    (ordersPay
      (fun pid => if pid = "p1" then
        some { id := "p1", name := "MTN 5GB", network := "MTN", dataAmount := "5GB",
               price := some 5, userPrice := some 5, agentPrice := some 4 }
        else none)
      { id := "u1", username := "boss", role := "admin" } "p1" true
      { balance := 100, orders := [], cart := [], nextOrderId := 0 }).1
      = .insufficientWallet
    ∧ (ordersPay
      (fun pid => if pid = "p1" then
        some { id := "p1", name := "MTN 5GB", network := "MTN", dataAmount := "5GB",
               price := some 5, userPrice := some 5, agentPrice := some 4 }
        else none)
      { id := "u1", username := "boss", role := "admin" } "p1" true
      { balance := 100, orders := [], cart := [], nextOrderId := 0 }).2
      = { balance := 100, orders := [], cart := [], nextOrderId := 0 }
    ∧ ((5 : Rat) ≤ 100) := by
  decide

/-- C2 evaluated at the failing input: the cart-checkout path initializes
the gateway with the total converted to minor units (10 GHS gives amount
1000), but the single-item pay path builds its init body with the raw
role price (10, no conversion) and then fails before the outbound call
when `metadata.userId` dereferences the absent `user._id`. -/
theorem claim_c2_pay_path_skips_minor_units :
    (cartCheckout
      (fun pid => if pid = "p1" then
        some { id := "p1", name := "MTN 5GB", network := "MTN", dataAmount := "5GB",
               price := some 12, userPrice := some 10, agentPrice := some 8 }
        else none)
      { id := "u2", username := "ama", role := "user" } "paystack"
      (fun _ => .ok { success := true })
      { balance := 0, orders := [],
        cart := [{ productId := "p1", quantity := 1, phoneNumber := none }],
        nextOrderId := 0 }).1
      = .paystackInit { amount := some 1000, email := "ama", currency := "GHS",
                        metadataType := "order", metadataUserId := some "u2",
                        metadataCart := [{ productId := "p1", quantity := 1, phoneNumber := none }] }
    ∧ (ordersPay
      (fun pid => if pid = "p1" then
        some { id := "p1", name := "MTN 5GB", network := "MTN", dataAmount := "5GB",
               price := some 12, userPrice := some 10, agentPrice := some 8 }
        else none)
      { id := "u2", username := "ama", role := "user" } "p1" false
      { balance := 0, orders := [], cart := [], nextOrderId := 0 }).1
      = .gatewayInitFailed
    ∧ ordersPayAmountToCharge { id := "u2", username := "ama", role := "user" }
        { id := "p1", name := "MTN 5GB", network := "MTN", dataAmount := "5GB",
          price := some 12, userPrice := some 10, agentPrice := some 8 }
      = some 10
    ∧ (10 : Rat) ≠ 10 * 100 := by
  refine ⟨?_, by decide, by decide, by norm_num⟩
  simp [cartCheckout, computeTotal, rolePrice, qtyOrOne, jsStrOr]
  norm_num

/-- C7: with the default `maxRetries = 2`, the retry wrapper never throws
(it always returns a result value), makes between 1 and 2 attempts, makes
only 1 attempt whenever the first result fails with a validation-classified
error ("not available"/"Invalid"/"must be"), sleeps exactly the exponential
backoff schedule `min(1000 * 2 ^ i, 5000)` between attempts, and returns
the result of the last attempt made. -/
theorem claim_c7_retry_policy (phone : String) (bs : BundleSize) (network : String)
    (ref : Option String) (oracle : Nat → VendorOutcome) :
    ∃ out : RetryOutcome,
      purchaseDataBundleWithRetry phone bs network ref oracle 2 = .ok out
      ∧ 1 ≤ out.attempts ∧ out.attempts ≤ 2
      ∧ (∀ r1 c1, purchaseDataBundle phone bs network ref (oracle 0) = .ok (r1, c1) →
          r1.success = false → isValidationErrorMsg r1.error = true → out.attempts = 1)
      ∧ out.waits = (List.range (out.attempts - 1)).map backoffWait
      ∧ (∃ cL, purchaseDataBundle phone bs network ref (oracle (out.attempts - 1))
            = .ok (out.result, cL)) := by
  obtain ⟨r0, c0, h0⟩ := purchaseDataBundle_isOk phone bs network ref (oracle 0)
  obtain ⟨r1, c1, h1⟩ := purchaseDataBundle_isOk phone bs network ref (oracle 1)
  by_cases hs0 : r0.success = true
  · refine ⟨{ result := r0, attempts := 1, waits := [],
              calls := 0 + (if c0 then 1 else 0) }, ?_, le_refl 1, Nat.le_succ 1,
            fun _ _ _ _ _ => rfl, rfl, ⟨c0, h0⟩⟩
    unfold purchaseDataBundleWithRetry
    simp only [retryLoop]
    rw [h0]
    simp [hs0]
  · by_cases hv0 : isValidationErrorMsg r0.error = true
    · refine ⟨{ result := r0, attempts := 1, waits := [],
                calls := 0 + (if c0 then 1 else 0) }, ?_, le_refl 1, Nat.le_succ 1,
              fun _ _ _ _ _ => rfl, rfl, ⟨c0, h0⟩⟩
      unfold purchaseDataBundleWithRetry
      simp only [retryLoop]
      rw [h0]
      simp [hs0, hv0]
    · refine ⟨{ result := r1, attempts := 2, waits := [backoffWait 0],
                calls := (0 + (if c0 then 1 else 0)) + (if c1 then 1 else 0) },
              ?_, Nat.le_succ 1, le_refl 2, ?_, by simp [List.range_succ], ⟨c1, h1⟩⟩
      · unfold purchaseDataBundleWithRetry
        simp only [retryLoop]
        rw [h0, h1]
        by_cases hs1 : r1.success = true
        · simp [hs0, hv0, hs1]
        · by_cases hv1 : isValidationErrorMsg r1.error = true
          · simp [hs0, hv0, hs1, hv1]
          · simp [hs0, hv0, hs1, hv1]
      · intro r1x c1x h0x hfailx hvalx
        rw [h0] at h0x
        simp only [Except.ok.injEq, Prod.mk.injEq] at h0x
        rw [← h0x.1] at hvalx
        exact absurd hvalx hv0

theorem processUnit_no_phone (catalog : Catalog) (uid pid : String) (po : Option Rat)
    (p : Product) (vr : Except String PurchaseResult) (st : CheckoutState)
    (hcat : catalog pid = some p)
    (hpr : (match po with | some x => some x | none => p.price).isSome = true) :
    ∃ O : OrderRec,
      processUnit catalog uid pid po "" p vr st
        = ({ st with orders := st.orders ++ [O], nextOrderId := st.nextOrderId + 1 },
           [.orderCreated O.id], [O.id], false)
      ∧ O.status = "completed" ∧ O.paymentStatus = "success" := by
  rcases Option.isSome_iff_exists.mp hpr with ⟨price, hprice⟩
  have hco : createCompletedOrder catalog
      { productId := pid, userId := uid, priceOverride := po,
        phoneNumber := some "", productName := some p.name,
        statusOverride := if "" ≠ "" then some "processing" else none }
      st.nextOrderId
    = .ok (mkCompletedOrder p
        { productId := pid, userId := uid, priceOverride := po,
          phoneNumber := some "", productName := some p.name,
          statusOverride := if "" ≠ "" then some "processing" else none }
        price st.nextOrderId) :=
    createCompletedOrder_ok _ _ _ _ _ hcat hprice
  refine ⟨mkCompletedOrder p
      { productId := pid, userId := uid, priceOverride := po,
        phoneNumber := some "", productName := some p.name,
        statusOverride := if "" ≠ "" then some "processing" else none }
      price st.nextOrderId, ?_, ?_, rfl⟩
  · unfold processUnit
    rw [hco]
    rfl
  · simp [mkCompletedOrder, jsStrOr]

theorem processUnits_no_phone (catalog : Catalog) (uid pid : String) (po : Option Rat)
    (p : Product) (vendor : Nat → Except String PurchaseResult)
    (hcat : catalog pid = some p)
    (hpr : (match po with | some x => some x | none => p.price).isSome = true) :
    ∀ (n k : Nat) (st : CheckoutState),
    ∃ news : List OrderRec,
      (processUnits catalog uid pid po "" p vendor n k st).1.orders = st.orders ++ news
      ∧ news.length = n
      ∧ (∀ o ∈ news, o.status = "completed" ∧ o.paymentStatus = "success")
      ∧ (processUnits catalog uid pid po "" p vendor n k st).2.2.2 = k
      ∧ (∀ oid, Ev.vendorDispatch oid ∉ (processUnits catalog uid pid po "" p vendor n k st).2.1) := by
  intro n
  induction n with
  | zero =>
      intro k st
      exact ⟨[], by simp [processUnits], rfl, by simp, rfl, by simp [processUnits]⟩
  | succ n ih =>
      intro k st
      obtain ⟨O, hstep, hOst, hOpay⟩ := processUnit_no_phone catalog uid pid po p (vendor k) st hcat hpr
      obtain ⟨news, hn1, hn2, hn3, hn4, hn5⟩ := ih k
        { st with orders := st.orders ++ [O], nextOrderId := st.nextOrderId + 1 }
      refine ⟨O :: news, ?_, ?_, ?_, ?_, ?_⟩
      · simp only [processUnits, hstep]
        simpa [List.append_assoc] using hn1
      · simpa using hn2
      · intro o ho
        rcases List.mem_cons.mp ho with rfl | ho2
        · exact ⟨hOst, hOpay⟩
        · exact hn3 o ho2
      · simp only [processUnits, hstep]
        simpa using hn4
      · intro oid
        simp only [processUnits, hstep, List.mem_append]
        push_neg
        exact ⟨by simp, hn5 oid⟩

theorem jsStrOr_empty_of_falsy {a : Option String} (h : jsFalsy a = true) :
    jsStrOr a "" = "" := by
  cases a with
  | none => rfl
  | some s =>
      have hs : s = "" := by simpa [jsFalsy] using h
      subst hs
      rfl

/-- C9: in the wallet checkout, every order created for a cart line with no
phone number is persisted with status "completed" and paymentStatus
"success", no vendor dispatch is attempted for the line (the dispatch
cursor is unchanged and no dispatch event is emitted). -/
theorem claim_c9_no_phone_completed (catalog : Catalog) (role uid : String)
    (vendor : Nat → Except String PurchaseResult) (item : CartItem) (k : Nat)
    (st : CheckoutState) (p : Product)
    (hcat : catalog item.productId = some p)
    (hphone : jsFalsy item.phoneNumber = true)
    (hpr : (match rolePrice role p with | some x => some x | none => p.price).isSome = true) :
    ∃ news : List OrderRec,
      (processItem catalog role uid vendor item k st).2.1.orders = st.orders ++ news
      ∧ news.length = qtyOrOne item.quantity
      ∧ (∀ o ∈ news, o.status = "completed" ∧ o.paymentStatus = "success")
      ∧ (processItem catalog role uid vendor item k st).2.2.2.2 = k
      ∧ (∀ oid, Ev.vendorDispatch oid ∉ (processItem catalog role uid vendor item k st).2.2.1) := by
  have hps : jsStrOr item.phoneNumber "" = "" := jsStrOr_empty_of_falsy hphone
  have hred : processItem catalog role uid vendor item k st
      = (none,
         (processUnits catalog uid item.productId (rolePrice role p) "" p vendor
            (qtyOrOne item.quantity) k st).1,
         (processUnits catalog uid item.productId (rolePrice role p) "" p vendor
            (qtyOrOne item.quantity) k st).2.1,
         (processUnits catalog uid item.productId (rolePrice role p) "" p vendor
            (qtyOrOne item.quantity) k st).2.2.1,
         (processUnits catalog uid item.productId (rolePrice role p) "" p vendor
            (qtyOrOne item.quantity) k st).2.2.2) := by
    unfold processItem
    rw [hcat]
    simp only [hps]
  obtain ⟨news, h1, h2, h3, h4, h5⟩ := processUnits_no_phone catalog uid item.productId
    (rolePrice role p) p vendor hcat hpr (qtyOrOne item.quantity) k st
  exact ⟨news, by rw [hred]; exact h1, h2, h3, by rw [hred]; exact h4,
    fun oid => by rw [hred]; exact h5 oid⟩

/-- Witness for C9: a two-unit cart line without a phone number. -/
theorem claim_c9_no_phone_completed_witness :
    ∃ news : List OrderRec,
      (processItem
        (fun pid => if pid = "p1" then
          some { id := "p1", name := "MTN 1GB", network := "MTN", dataAmount := "1GB",
                 price := some 3, userPrice := some 4, agentPrice := some 2 }
          else none)
        "agent" "u1" (fun _ => .ok { success := true })
        { productId := "p1", quantity := 2, phoneNumber := none } 0
        { balance := 0, orders := [], cart := [], nextOrderId := 0 }).2.1.orders
        = ({ balance := 0, orders := [], cart := [], nextOrderId := 0 } : CheckoutState).orders ++ news
      ∧ news.length = qtyOrOne ({ productId := "p1", quantity := 2, phoneNumber := none } : CartItem).quantity
      ∧ (∀ o ∈ news, o.status = "completed" ∧ o.paymentStatus = "success")
      ∧ (processItem
        (fun pid => if pid = "p1" then
          some { id := "p1", name := "MTN 1GB", network := "MTN", dataAmount := "1GB",
                 price := some 3, userPrice := some 4, agentPrice := some 2 }
          else none)
        "agent" "u1" (fun _ => .ok { success := true })
        { productId := "p1", quantity := 2, phoneNumber := none } 0
        { balance := 0, orders := [], cart := [], nextOrderId := 0 }).2.2.2.2 = 0
      ∧ (∀ oid, Ev.vendorDispatch oid ∉ (processItem
        (fun pid => if pid = "p1" then
          some { id := "p1", name := "MTN 1GB", network := "MTN", dataAmount := "1GB",
                 price := some 3, userPrice := some 4, agentPrice := some 2 }
          else none)
        "agent" "u1" (fun _ => .ok { success := true })
        { productId := "p1", quantity := 2, phoneNumber := none } 0
        { balance := 0, orders := [], cart := [], nextOrderId := 0 }).2.2.1) :=
  claim_c9_no_phone_completed _ _ _ _ _ _ _
    { id := "p1", name := "MTN 1GB", network := "MTN", dataAmount := "1GB",
      price := some 3, userPrice := some 4, agentPrice := some 2 }
    (by decide) (by decide) (by decide)

theorem processUnit_priced (catalog : Catalog) (uid pid phone : String) (po : Option Rat)
    (p : Product) (vr : Except String PurchaseResult) (st : CheckoutState) (pr : Rat)
    (hcat : catalog pid = some p)
    (hpo : (match po with | some x => some x | none => p.price) = some pr)
    (hinv : idsBounded st) :
    ∃ O : OrderRec,
      (processUnit catalog uid pid po phone p vr st).1.orders = st.orders ++ [O]
      ∧ O.price = pr
      ∧ (processUnit catalog uid pid po phone p vr st).1.nextOrderId = st.nextOrderId + 1
      ∧ idsBounded (processUnit catalog uid pid po phone p vr st).1 := by
  have hco : createCompletedOrder catalog
      { productId := pid, userId := uid, priceOverride := po,
        phoneNumber := some phone, productName := some p.name,
        statusOverride := if phone ≠ "" then some "processing" else none }
      st.nextOrderId
    = .ok (mkCompletedOrder p
        { productId := pid, userId := uid, priceOverride := po,
          phoneNumber := some phone, productName := some p.name,
          statusOverride := if phone ≠ "" then some "processing" else none }
        pr st.nextOrderId) :=
    createCompletedOrder_ok _ _ _ _ _ hcat hpo
  have hfresh : ∀ x ∈ st.orders,
      x.id ≠ (mkCompletedOrder p
        { productId := pid, userId := uid, priceOverride := po,
          phoneNumber := some phone, productName := some p.name,
          statusOverride := if phone ≠ "" then some "processing" else none }
        pr st.nextOrderId).id :=
    fun x hx => Nat.ne_of_lt (hinv x hx)
  by_cases hph : phone = ""
  · subst hph
    refine ⟨mkCompletedOrder p
        { productId := pid, userId := uid, priceOverride := po,
          phoneNumber := some "", productName := some p.name,
          statusOverride := if "" ≠ "" then some "processing" else none }
        pr st.nextOrderId, ?_, rfl, ?_, ?_⟩
    · unfold processUnit
      rw [hco]
      rfl
    · unfold processUnit
      rw [hco]
      rfl
    · intro o ho
      have hred : (processUnit catalog uid pid po "" p vr st).1
          = { st with
              orders := st.orders ++ [mkCompletedOrder p
                { productId := pid, userId := uid, priceOverride := po,
                  phoneNumber := some "", productName := some p.name,
                  statusOverride := if "" ≠ "" then some "processing" else none }
                pr st.nextOrderId],
              nextOrderId := st.nextOrderId + 1 } := by
        unfold processUnit
        rw [hco]
        rfl
      rw [hred] at ho ⊢
      simp only [List.mem_append, List.mem_singleton] at ho
      rcases ho with ho | rfl
      · exact Nat.lt_succ_of_lt (hinv o ho)
      · exact Nat.lt_succ_self _
  · cases vr with
    | ok r =>
        have hred : (processUnit catalog uid pid po phone p (.ok r) st).1
            = { st with
                orders := st.orders ++ [applyDispatchResult (mkCompletedOrder p
                  { productId := pid, userId := uid, priceOverride := po,
                    phoneNumber := some phone, productName := some p.name,
                    statusOverride := if phone ≠ "" then some "processing" else none }
                  pr st.nextOrderId) r],
                nextOrderId := st.nextOrderId + 1 } := by
          unfold processUnit
          rw [hco]
          simp only [if_neg hph]
          rw [updateOrderById_append_fresh _ _ st.orders hfresh]
        refine ⟨_, by rw [hred], rfl, by rw [hred], ?_⟩
        intro o ho
        rw [hred] at ho ⊢
        simp only [List.mem_append, List.mem_singleton] at ho
        rcases ho with ho | rfl
        · exact Nat.lt_succ_of_lt (hinv o ho)
        · exact Nat.lt_succ_self _
    | error m =>
        have hred : (processUnit catalog uid pid po phone p (.error m) st).1
            = { st with
                orders := st.orders ++ [applyDispatchCatch (mkCompletedOrder p
                  { productId := pid, userId := uid, priceOverride := po,
                    phoneNumber := some phone, productName := some p.name,
                    statusOverride := if phone ≠ "" then some "processing" else none }
                  pr st.nextOrderId) m],
                nextOrderId := st.nextOrderId + 1 } := by
          unfold processUnit
          rw [hco]
          simp only [if_neg hph]
          rw [updateOrderById_append_fresh _ _ st.orders hfresh]
        refine ⟨_, by rw [hred], rfl, by rw [hred], ?_⟩
        intro o ho
        rw [hred] at ho ⊢
        simp only [List.mem_append, List.mem_singleton] at ho
        rcases ho with ho | rfl
        · exact Nat.lt_succ_of_lt (hinv o ho)
        · exact Nat.lt_succ_self _

theorem processUnits_priced (catalog : Catalog) (uid pid phone : String) (po : Option Rat)
    (p : Product) (vendor : Nat → Except String PurchaseResult) (pr : Rat)
    (hcat : catalog pid = some p)
    (hpo : (match po with | some x => some x | none => p.price) = some pr) :
    ∀ (n k : Nat) (st : CheckoutState), idsBounded st →
    ∃ news : List OrderRec,
      (processUnits catalog uid pid po phone p vendor n k st).1.orders = st.orders ++ news
      ∧ news.length = n
      ∧ (∀ o ∈ news, o.price = pr)
      ∧ idsBounded (processUnits catalog uid pid po phone p vendor n k st).1 := by
  intro n
  induction n with
  | zero =>
      intro k st hinv
      exact ⟨[], by simp [processUnits], rfl, by simp, hinv⟩
  | succ n ih =>
      intro k st hinv
      obtain ⟨O, hO1, hO2, _, hO4⟩ :=
        processUnit_priced catalog uid pid phone po p (vendor k) st pr hcat hpo hinv
      obtain ⟨news, hn1, hn2, hn3, hn4⟩ := ih
        (if (processUnit catalog uid pid po phone p (vendor k) st).2.2.2 then k + 1 else k)
        (processUnit catalog uid pid po phone p (vendor k) st).1 hO4
      refine ⟨O :: news, ?_, by simpa using hn2, ?_, ?_⟩
      · simp only [processUnits]
        rw [hn1, hO1]
        simp [List.append_assoc]
      · intro o ho
        rcases List.mem_cons.mp ho with rfl | ho2
        · exact hO2
        · exact hn3 o ho2
      · simp only [processUnits]
        exact hn4

theorem webhookUnit_priced (catalog : Catalog) (uid : String) (item : CartItem)
    (vr : Except String PurchaseResult) (st : CheckoutState) (p : Product) (pr : Rat)
    (hcat : catalog item.productId = some p)
    (hpp : p.price = some pr)
    (hinv : idsBounded st) :
    ∃ (O : OrderRec) (used : Bool),
      webhookUnit catalog uid item vr st
        = .ok ({ st with orders := st.orders ++ [O], nextOrderId := st.nextOrderId + 1 }, used)
      ∧ O.price = pr ∧ O.id = st.nextOrderId := by
  have hpo : (match (none : Option Rat) with | some x => some x | none => p.price)
      = some pr := hpp
  have hco : createCompletedOrder catalog
      { productId := item.productId, userId := uid,
        phoneNumber := some (jsStrOr item.phoneNumber ""),
        productName := some p.name,
        paymentStatus := some "success",
        statusOverride := if jsStrOr item.phoneNumber "" ≠ "" then some "processing" else none }
      st.nextOrderId
    = .ok (mkCompletedOrder p
        { productId := item.productId, userId := uid,
          phoneNumber := some (jsStrOr item.phoneNumber ""),
          productName := some p.name,
          paymentStatus := some "success",
          statusOverride := if jsStrOr item.phoneNumber "" ≠ "" then some "processing" else none }
        pr st.nextOrderId) :=
    createCompletedOrder_ok _ _ _ _ _ hcat hpo
  have hboundOld : ∀ x ∈ st.orders,
      x.id ≠ (mkCompletedOrder p
        { productId := item.productId, userId := uid,
          phoneNumber := some (jsStrOr item.phoneNumber ""),
          productName := some p.name,
          paymentStatus := some "success",
          statusOverride := if jsStrOr item.phoneNumber "" ≠ "" then some "processing" else none }
        pr st.nextOrderId).id :=
    fun x hx => Nat.ne_of_lt (hinv x hx)
  by_cases hph : jsStrOr item.phoneNumber "" = ""
  · refine ⟨mkCompletedOrder p
        { productId := item.productId, userId := uid,
          phoneNumber := some (jsStrOr item.phoneNumber ""),
          productName := some p.name,
          paymentStatus := some "success",
          statusOverride := if jsStrOr item.phoneNumber "" ≠ "" then some "processing" else none }
        pr st.nextOrderId, false, ?_, rfl, rfl⟩
    simp only [webhookUnit, hcat, Option.map_some', Option.isSome_some, true_and]
    rw [hco]
    simp [hph]
  · have hso : (if jsStrOr item.phoneNumber "" ≠ "" then some "processing"
        else (none : Option String)) = some "processing" := if_pos hph
    rw [hso] at hco hboundOld
    cases vr with
    | ok r =>
        refine ⟨applyDispatchResult (mkCompletedOrder p
            { productId := item.productId, userId := uid,
              phoneNumber := some (jsStrOr item.phoneNumber ""),
              productName := some p.name,
              paymentStatus := some "success",
              statusOverride := some "processing" }
            pr st.nextOrderId) r, true, ?_, rfl, rfl⟩
        simp only [webhookUnit, hcat, Option.map_some', Option.isSome_some, true_and, hso]
        rw [hco]
        simp only [if_pos hph]
        rw [updateOrderById_append_fresh _ _ st.orders hboundOld]
    | error m =>
        refine ⟨applyDispatchCatchWebhook (mkCompletedOrder p
            { productId := item.productId, userId := uid,
              phoneNumber := some (jsStrOr item.phoneNumber ""),
              productName := some p.name,
              paymentStatus := some "success",
              statusOverride := some "processing" }
            pr st.nextOrderId) m, true, ?_, rfl, rfl⟩
        simp only [webhookUnit, hcat, Option.map_some', Option.isSome_some, true_and, hso]
        rw [hco]
        simp only [if_pos hph]
        rw [updateOrderById_append_fresh _ _ st.orders hboundOld]

theorem webhookUnits_priced (catalog : Catalog) (uid : String) (item : CartItem)
    (vendor : Nat → Except String PurchaseResult) (p : Product) (pr : Rat)
    (hcat : catalog item.productId = some p)
    (hpp : p.price = some pr) :
    ∀ (n k : Nat) (st : CheckoutState), idsBounded st →
    ∃ (news : List OrderRec) (stOut : CheckoutState) (kOut : Nat),
      webhookUnits catalog uid item vendor n k st = .ok (stOut, kOut)
      ∧ stOut.orders = st.orders ++ news
      ∧ news.length = n
      ∧ (∀ o ∈ news, o.price = pr)
      ∧ idsBounded stOut := by
  intro n
  induction n with
  | zero =>
      intro k st hinv
      exact ⟨[], st, k, rfl, by simp, rfl, by simp, hinv⟩
  | succ n ih =>
      intro k st hinv
      obtain ⟨O, used, hstep, hOpr, hOid⟩ :=
        webhookUnit_priced catalog uid item (vendor k) st p pr hcat hpp hinv
      have hinv1 : idsBounded
          { st with orders := st.orders ++ [O], nextOrderId := st.nextOrderId + 1 } := by
        intro o ho
        simp only [List.mem_append, List.mem_singleton] at ho
        rcases ho with ho | rfl
        · exact Nat.lt_succ_of_lt (hinv o ho)
        · rw [hOid]
          exact Nat.lt_succ_self _
      obtain ⟨news, stOut, kOut, h1, h2, h3, h4, h5⟩ := ih (if used then k + 1 else k)
        { st with orders := st.orders ++ [O], nextOrderId := st.nextOrderId + 1 } hinv1
      refine ⟨O :: news, stOut, kOut, ?_, ?_, by simpa using h3, ?_, h5⟩
      · simp only [webhookUnits]
        rw [hstep]
        exact h1
      · rw [h2]
        simp [List.append_assoc]
      · intro o ho
        rcases List.mem_cons.mp ho with rfl | ho2
        · exact hOpr
        · exact h4 o ho2

/-- C8 amended: per cart line with quantity N and existing product, exactly
N independent Order records are created on both paths, each with its own
price snapshot — but the snapshots differ: the wallet path snapshots the
role-specific unit price, while the Paystack-webhook path (which passes no
`priceOverride`) snapshots the product's base `price` field. -/
theorem claim_c8_amended :
    (∀ (catalog : Catalog) (role uid : String) (vendor : Nat → Except String PurchaseResult)
        (item : CartItem) (k : Nat) (st : CheckoutState) (p : Product) (pr : Rat),
      catalog item.productId = some p → rolePrice role p = some pr → idsBounded st →
      ∃ news : List OrderRec,
        (processItem catalog role uid vendor item k st).2.1.orders = st.orders ++ news
        ∧ news.length = qtyOrOne item.quantity
        ∧ (∀ o ∈ news, o.price = pr))
    ∧ (∀ (catalog : Catalog) (uid : String) (vendor : Nat → Except String PurchaseResult)
        (item : CartItem) (k : Nat) (st : CheckoutState) (p : Product) (basePr : Rat),
      catalog item.productId = some p → p.price = some basePr → idsBounded st →
      ∃ (news : List OrderRec) (stOut : CheckoutState) (kOut : Nat),
        webhookUnits catalog uid item vendor (qtyOrOne item.quantity) k st = .ok (stOut, kOut)
        ∧ stOut.orders = st.orders ++ news
        ∧ news.length = qtyOrOne item.quantity
        ∧ (∀ o ∈ news, o.price = basePr)) := by
  constructor
  · intro catalog role uid vendor item k st p pr hcat hrp hinv
    have hpo : (match rolePrice role p with | some x => some x | none => p.price)
        = some pr := by rw [hrp]
    have hred : (processItem catalog role uid vendor item k st).2.1
        = (processUnits catalog uid item.productId (rolePrice role p)
            (jsStrOr item.phoneNumber "") p vendor (qtyOrOne item.quantity) k st).1 := by
      unfold processItem
      rw [hcat]
    obtain ⟨news, h1, h2, h3, _⟩ := processUnits_priced catalog uid item.productId
      (jsStrOr item.phoneNumber "") (rolePrice role p) p vendor pr hcat hpo
      (qtyOrOne item.quantity) k st hinv
    exact ⟨news, by rw [hred]; exact h1, h2, h3⟩
  · intro catalog uid vendor item k st p basePr hcat hpp hinv
    obtain ⟨news, stOut, kOut, h1, h2, h3, h4, _⟩ := webhookUnits_priced catalog uid item
      vendor p basePr hcat hpp (qtyOrOne item.quantity) k st hinv
    exact ⟨news, stOut, kOut, h1, h2, h3, h4⟩

/-- C8 counterexample: the Paystack-webhook fan-out of a quantity-3 cart
line creates 3 orders, but each snapshots the product's base price (10),
not the role-specific unit price (8 for users, 6 for agents) the claim
requires on this path. -/
theorem claim_c8_counterexample :
    (webhookOrderLoop
      (fun pid => if pid = "p1" then
        some { id := "p1", name := "MTN 2GB", network := "MTN", dataAmount := "2GB",
               price := some 10, userPrice := some 8, agentPrice := some 6 }
        else none)
      "u1" (fun _ => .ok { success := true })
      [{ productId := "p1", quantity := 3, phoneNumber := none }] 0
      { balance := 0, orders := [], cart := [], nextOrderId := 0 }).map
        (fun x => x.1.orders.map OrderRec.price)
      = .ok [10, 10, 10]
    ∧ (10 : Rat) ≠ 8 ∧ (10 : Rat) ≠ 6 := by
  decide

/-- Witness for the amended C8: a quantity-2 line on the wallet path (agent
price 6) and the same line on the webhook path (base price 10). -/
theorem claim_c8_amended_witness :
    (∃ news : List OrderRec,
      (processItem
        (fun pid => if pid = "p1" then
          some { id := "p1", name := "MTN 2GB", network := "MTN", dataAmount := "2GB",
                 price := some 10, userPrice := some 8, agentPrice := some 6 }
          else none)
        "agent" "u1" (fun _ => .ok { success := true })
        { productId := "p1", quantity := 2, phoneNumber := some "0241234567" } 0
        { balance := 0, orders := [], cart := [], nextOrderId := 0 }).2.1.orders
        = ({ balance := 0, orders := [], cart := [], nextOrderId := 0 } : CheckoutState).orders ++ news
      ∧ news.length = qtyOrOne ({ productId := "p1", quantity := 2, phoneNumber := some "0241234567" } : CartItem).quantity
      ∧ (∀ o ∈ news, o.price = 6))
    ∧ (∃ (news : List OrderRec) (stOut : CheckoutState) (kOut : Nat),
      webhookUnits
        (fun pid => if pid = "p1" then
          some { id := "p1", name := "MTN 2GB", network := "MTN", dataAmount := "2GB",
                 price := some 10, userPrice := some 8, agentPrice := some 6 }
          else none)
        "u1" { productId := "p1", quantity := 2, phoneNumber := some "0241234567" }
        (fun _ => .ok { success := true })
        (qtyOrOne ({ productId := "p1", quantity := 2, phoneNumber := some "0241234567" } : CartItem).quantity) 0
        { balance := 0, orders := [], cart := [], nextOrderId := 0 } = .ok (stOut, kOut)
      ∧ stOut.orders = ({ balance := 0, orders := [], cart := [], nextOrderId := 0 } : CheckoutState).orders ++ news
      ∧ news.length = qtyOrOne ({ productId := "p1", quantity := 2, phoneNumber := some "0241234567" } : CartItem).quantity
      ∧ (∀ o ∈ news, o.price = 10)) :=
  ⟨claim_c8_amended.1 _ _ _ _ _ _ _
      { id := "p1", name := "MTN 2GB", network := "MTN", dataAmount := "2GB",
        price := some 10, userPrice := some 8, agentPrice := some 6 } 6
      (by decide) (by decide) (by intro o ho; simp at ho),
   claim_c8_amended.2 _ _ _ _ _ _
      { id := "p1", name := "MTN 2GB", network := "MTN", dataAmount := "2GB",
        price := some 10, userPrice := some 8, agentPrice := some 6 } 10
      (by decide) (by decide) (by intro o ho; simp at ho)⟩

/-- Witness for C7 at a concrete always-failing transient oracle. -/
theorem claim_c7_retry_policy_witness :
    ∃ out : RetryOutcome,
      purchaseDataBundleWithRetry "0241234567" (.str "5GB") "MTN" none
          (fun _ => .netError "boom") 2 = .ok out
      ∧ 1 ≤ out.attempts ∧ out.attempts ≤ 2
      ∧ (∀ r1 c1, purchaseDataBundle "0241234567" (.str "5GB") "MTN" none
            (VendorOutcome.netError "boom") = .ok (r1, c1) →
          r1.success = false → isValidationErrorMsg r1.error = true → out.attempts = 1)
      ∧ out.waits = (List.range (out.attempts - 1)).map backoffWait
      ∧ (∃ cL, purchaseDataBundle "0241234567" (.str "5GB") "MTN" none
            (VendorOutcome.netError "boom") = .ok (out.result, cL)) :=
  claim_c7_retry_policy _ _ _ _ _
